import Mathlib

/-!
Verification of the Pulse-Web-Scraper review pipeline.

Shallow embedding conventions:
* JavaScript strings are modelled as `List Char`.
* A JavaScript `Date` (an "Instant" of the spec) is modelled at day
  granularity by a civil calendar triple `Instant` (year, month 1-12,
  day 1-31).  The host clock/timezone is modelled as UTC, so comparing
  two `Date` values (epoch-millisecond order in JS) is the
  lexicographic order on valid triples, and `new Date(y, m, d)` with
  field overflow is normalisation by calendar day stepping
  (`jsMkDate`).
* Browser/DOM interaction (puppeteer page navigation, `querySelector`
  results, `innerText` contents) is modelled by environment records
  whose fields give the outcome of each external step; a thrown
  navigation error is an `Except.error` carrying the message.
-/

/-- A calendar date: the model of a JS `Date` at day granularity. -/
structure Instant where
  year : Int
  month : Nat
  day : Nat
deriving DecidableEq, Repr

/-- Gregorian leap-year rule, as used by the JS `Date` calendar. -/
def isLeap (y : Int) : Bool :=
  decide ((y % 4 = 0 ∧ ¬ y % 100 = 0) ∨ y % 400 = 0)

/-- Number of days of month `m` (1-12) of year `y`. -/
def daysInMonth (y : Int) (m : Nat) : Nat :=
  if m = 2 then (if isLeap y then 29 else 28)
  else if m = 4 ∨ m = 6 ∨ m = 9 ∨ m = 11 then 30
  else 31

/-- `t` is an actual calendar date (normalised `Date` contents). -/
def Instant.valid (t : Instant) : Prop :=
  1 ≤ t.month ∧ t.month ≤ 12 ∧ 1 ≤ t.day ∧ t.day ≤ daysInMonth t.year t.month

instance (t : Instant) : Decidable t.valid := by
  unfold Instant.valid; infer_instance

/-- The calendar day after `t`. -/
def nextDay (t : Instant) : Instant :=
  if t.day < daysInMonth t.year t.month then ⟨t.year, t.month, t.day + 1⟩
  else if t.month < 12 then ⟨t.year, t.month + 1, 1⟩
  else ⟨t.year + 1, 1, 1⟩

/-- The calendar day before `t`. -/
def prevDay (t : Instant) : Instant :=
  if 1 < t.day then ⟨t.year, t.month, t.day - 1⟩
  else if 1 < t.month then ⟨t.year, t.month - 1, daysInMonth t.year (t.month - 1)⟩
  else ⟨t.year - 1, 12, 31⟩

/-- Step `n` days forward (or backward for negative `n`). -/
def addDays (t : Instant) (n : Int) : Instant :=
  if 0 ≤ n then nextDay^[n.toNat] t else prevDay^[(-n).toNat] t

/-- The instant exactly `n` days earlier than `t`. -/
def subDays (t : Instant) (n : Nat) : Instant := prevDay^[n] t

/-- Model of the JS constructor `new Date(year, monthIndex, day)`:
month index and day overflow/underflow are normalised by the calendar
(e.g. `new Date(2023, 12, 1)` is Jan 1 2024, day `0` is the last day
of the previous month). -/
def jsMkDate (y mIdx d : Int) : Instant :=
  let y' := y + mIdx / 12
  let m' := (mIdx % 12).toNat + 1
  addDays ⟨y', m', 1⟩ (d - 1)

/-- JS `<=` on `Date` values (epoch order), on the day-granularity
model: lexicographic comparison of the civil triple. -/
def instLe (a b : Instant) : Bool :=
  decide (a.year < b.year ∨ (a.year = b.year ∧
    (a.month < b.month ∨ (a.month = b.month ∧ a.day ≤ b.day))))

/-- JS `<` on `Date` values, day-granularity model. -/
def instLt (a b : Instant) : Bool :=
  decide (a.year < b.year ∨ (a.year = b.year ∧
    (a.month < b.month ∨ (a.month = b.month ∧ a.day < b.day))))

/-! ## Character and string utilities (JS strings as `List Char`) -/

/-- JS whitespace (`\s`, `trim`): the ASCII whitespace characters.
(The Unicode space characters also matched by JS are not used by any
input considered here.) -/
def isWsChar (c : Char) : Bool :=
  c == ' ' || c == '\t' || c == '\n' || c == '\r' || c == '\x0b' || c == '\x0c'

/-- JS `String.prototype.toLowerCase` on ASCII. -/
def jsToLower (c : Char) : Char :=
  if 'A' ≤ c ∧ c ≤ 'Z' then Char.ofNat (c.toNat + 32) else c

/-- JS `String.prototype.trim`: strip whitespace from both ends. -/
def jsTrim (l : List Char) : List Char :=
  ((l.dropWhile isWsChar).reverse.dropWhile isWsChar).reverse

/-- Numeric value of a decimal digit string (JS `parseInt(s, 10)` on a
string of digits, leading zeros allowed). -/
def digitsVal (ds : List Char) : Nat :=
  ds.foldl (fun a c => 10 * a + (c.toNat - 48)) 0

/-- The decimal digit character for `n ≤ 9`. -/
def digitChar : Nat → Char
  | 0 => '0' | 1 => '1' | 2 => '2' | 3 => '3' | 4 => '4'
  | 5 => '5' | 6 => '6' | 7 => '7' | 8 => '8' | 9 => '9'
  | _ => '?'

/-- Fuel-driven decimal printing of a natural number (JS number to
string for nonnegative integers).  Fuel `n + 1` always suffices. -/
def natCharsAux : Nat → Nat → List Char
  | 0, _ => []
  | fuel + 1, n =>
    if n < 10 then [digitChar n]
    else natCharsAux fuel (n / 10) ++ [digitChar (n % 10)]

/-- Decimal printing of a natural number. -/
def natChars (n : Nat) : List Char := natCharsAux (n + 1) n

/-- JS template interpolation of an integer (`${year}`): decimal
digits, with a leading minus sign for negative values. -/
def intChars (i : Int) : List Char :=
  if i < 0 then '-' :: natChars (-i).toNat else natChars i.toNat

/-- JS `String(n).padStart(2, '0')`. -/
def jsPadStart2 (l : List Char) : List Char :=
  if l.length ≥ 2 then l
  else if l.length = 1 then '0' :: l
  else ['0', '0']

/-! ## The date-format matchers of `parseDate` (backend/utils/dateUtils.js)

Each JS regular expression used by `parseDate` is embedded as a
leftmost-match scanner over `List Char`.  Unanchored `.match` tries
each start position from the left; at a fixed start, greedy
quantifiers whose character class is disjoint from the following
pattern element never benefit from backtracking, so each quantifier
takes its maximal run.  The only live backtracking — the alternation
`day|days|...` followed by `\s+ago`, and two-digit captures whose
following separator test can fail — is implemented explicitly. -/

/-- Leftmost-match scanner: try `f` at every suffix, leftmost first
(the semantics of an unanchored JS `String.prototype.match`). -/
def scanOpt {α : Type} (f : List Char → Option α) : List Char → Option α
  | [] => none
  | c :: r =>
    match f (c :: r) with
    | some x => some x
    | none => scanOpt f r

/-- The relative-date unit of `"<N> <unit> ago"`. -/
inductive RelUnit where
  | day | week | month | year
deriving DecidableEq, Repr

/-- The alternatives of `(day|days|week|weeks|month|months|year|years)`
in JS alternation order. -/
def relUnitTable : List (List Char × RelUnit) :=
  [("day".data, .day), ("days".data, .day),
   ("week".data, .week), ("weeks".data, .week),
   ("month".data, .month), ("months".data, .month),
   ("year".data, .year), ("years".data, .year)]

/-- Case-insensitive literal prefix: returns the remainder after the
pattern when the pattern matches the front of `l`. -/
def ciPrefixRem : List Char → List Char → Option (List Char)
  | [], l => some l
  | _ :: _, [] => none
  | p :: ps, c :: cs =>
    if jsToLower c = jsToLower p then ciPrefixRem ps cs else none

/-- After a unit alternative, the regex requires `\s+ago`
(case-insensitively). -/
def afterUnitOk (l : List Char) : Bool :=
  if l.takeWhile isWsChar = [] then false
  else
    match ciPrefixRem ("ago".data) (l.dropWhile isWsChar) with
    | some _ => true
    | none => false

/-- Try the unit alternatives in order; an alternative is chosen only
when the rest of the pattern (`\s+ago`) also matches after it — the
JS backtracking discipline for `(day|days|...)\s+ago`. -/
def tryUnits : List (List Char × RelUnit) → List Char → Option RelUnit
  | [], _ => none
  | (pat, u) :: rest, l =>
    match ciPrefixRem pat l with
    | some rem => if afterUnitOk rem then some u else tryUnits rest l
    | none => tryUnits rest l

/-- Match of `/(\d+)\s+(day|days|week|weeks|month|months|year|years)\s+ago/i`
at the start of `l`. -/
def matchRelAt (l : List Char) : Option (Nat × RelUnit) :=
  if l.takeWhile Char.isDigit = [] then none
  else if (l.dropWhile Char.isDigit).takeWhile isWsChar = [] then none
  else
    match tryUnits relUnitTable ((l.dropWhile Char.isDigit).dropWhile isWsChar) with
    | some u => some (digitsVal (l.takeWhile Char.isDigit), u)
    | none => none

/-- Leftmost match of the relative-date regex. -/
def matchRel (l : List Char) : Option (Nat × RelUnit) := scanOpt matchRelAt l

/-- Match of `/([A-Za-z]{3,9})\s+(\d{1,2})(?:,|\s)+(\d{4})/` at the
start of `l`: month name (the maximal letter run, which must have
length 3-9), day (digit run of length 1-2 followed by comma or
whitespace), year (the first 4 of at least 4 digits). -/
def matchMonthAt (l : List Char) : Option (List Char × Nat × Nat) :=
  let ls := l.takeWhile Char.isAlpha
  if 3 ≤ ls.length ∧ ls.length ≤ 9 then
    let r1 := l.dropWhile Char.isAlpha
    if r1.takeWhile isWsChar = [] then none
    else
      let r2 := r1.dropWhile isWsChar
      let ds := r2.takeWhile Char.isDigit
      if ds.length = 1 ∨ ds.length = 2 then
        let r3 := r2.dropWhile Char.isDigit
        if r3.takeWhile (fun c => c == ',' || isWsChar c) = [] then none
        else
          let r4 := r3.dropWhile (fun c => c == ',' || isWsChar c)
          let ys := r4.takeWhile Char.isDigit
          if 4 ≤ ys.length then some (ls, digitsVal ds, digitsVal (ys.take 4))
          else none
      else none
  else none

/-- Leftmost match of the month-name regex: `(name, day, year)`. -/
def matchMonth (l : List Char) : Option (List Char × Nat × Nat) :=
  scanOpt matchMonthAt l

/-- Match of `/(\d{4})[-\/](\d{1,2})[-\/](\d{1,2})/` at the start of
`l`: `(year, month, day)`. -/
def matchYMDAt (l : List Char) : Option (Nat × Nat × Nat) :=
  match l with
  | a :: b :: c :: d :: s1 :: rest =>
    if a.isDigit ∧ b.isDigit ∧ c.isDigit ∧ d.isDigit ∧ (s1 = '-' ∨ s1 = '/') then
      let ms := rest.takeWhile Char.isDigit
      if ms.length = 1 ∨ ms.length = 2 then
        match rest.dropWhile Char.isDigit with
        | s2 :: r2 =>
          if s2 = '-' ∨ s2 = '/' then
            let ds := r2.takeWhile Char.isDigit
            if 1 ≤ ds.length then
              some (digitsVal [a, b, c, d], digitsVal ms, digitsVal (ds.take 2))
            else none
          else none
        | [] => none
      else none
    else none
  | _ => none

/-- Leftmost match of the `YYYY-M-D` / `YYYY/M/D` regex. -/
def matchYMD (l : List Char) : Option (Nat × Nat × Nat) := scanOpt matchYMDAt l

/-- Match of `/(\d{1,2})[-\/](\d{1,2})[-\/](\d{4})/` at the start of
`l`: `(day, month, year)`. -/
def matchDMYAt (l : List Char) : Option (Nat × Nat × Nat) :=
  let ds := l.takeWhile Char.isDigit
  if ds.length = 1 ∨ ds.length = 2 then
    match l.dropWhile Char.isDigit with
    | s1 :: r1 =>
      if s1 = '-' ∨ s1 = '/' then
        let ms := r1.takeWhile Char.isDigit
        if ms.length = 1 ∨ ms.length = 2 then
          match r1.dropWhile Char.isDigit with
          | s2 :: r2 =>
            if s2 = '-' ∨ s2 = '/' then
              let ys := r2.takeWhile Char.isDigit
              if 4 ≤ ys.length then
                some (digitsVal ds, digitsVal ms, digitsVal (ys.take 4))
              else none
            else none
          | [] => none
        else none
      else none
    | [] => none
  else none

/-- Leftmost match of the `D-M-YYYY` / `D/M/YYYY` regex. -/
def matchDMY (l : List Char) : Option (Nat × Nat × Nat) := scanOpt matchDMYAt l

/-- The fixed 12-entry month table of `parseDate` (keys lowercase). -/
def monthTable : List (List Char × Nat) :=
  [("jan".data, 0), ("january".data, 0),
   ("feb".data, 1), ("february".data, 1),
   ("mar".data, 2), ("march".data, 2),
   ("apr".data, 3), ("april".data, 3),
   ("may".data, 4),
   ("jun".data, 5), ("june".data, 5),
   ("jul".data, 6), ("july".data, 6),
   ("aug".data, 7), ("august".data, 7),
   ("sep".data, 8), ("september".data, 8),
   ("oct".data, 9), ("october".data, 9),
   ("nov".data, 10), ("november".data, 10),
   ("dec".data, 11), ("december".data, 11)]

/-- Case-insensitive month-name lookup (`months[monthName.toLowerCase()]`). -/
def monthLookup (name : List Char) : Option Nat :=
  monthTable.lookup (name.map jsToLower)

/-- The relative branch of `parseDate`: subtract the amount from the
current instant with the JS `setDate`/`setMonth`/`setFullYear`
overflow semantics. -/
def applyRel (now : Instant) (n : Nat) : RelUnit → Instant
  | .day => jsMkDate now.year ((now.month : Int) - 1) ((now.day : Int) - (n : Int))
  | .week => jsMkDate now.year ((now.month : Int) - 1) ((now.day : Int) - ((n * 7 : Nat) : Int))
  | .month => jsMkDate now.year ((now.month : Int) - 1 - (n : Int)) (now.day : Int)
  | .year => jsMkDate (now.year - (n : Int)) ((now.month : Int) - 1) (now.day : Int)

/-- The two numeric branches of `parseDate`, in code order. -/
def numericChain (t : List Char) : Option Instant :=
  match matchYMD t with
  | some (y, mo, d) => some (jsMkDate (y : Int) ((mo : Int) - 1) (d : Int))
  | none =>
    match matchDMY t with
    | some (d, mo, y) => some (jsMkDate (y : Int) ((mo : Int) - 1) (d : Int))
    | none => none

/-- Modelled from the spec: the host's native date parser (`new
Date(string)` — "Any string the host's native date-parsing accepts"),
which is host-runtime code, not part of this repository.  It is
restricted here to strict ISO `YYYY-MM-DD` date-only strings with
in-range month and day, interpreted at UTC midnight (day granularity). -/
def isoNative : List Char → Option Instant
  | y1 :: y2 :: y3 :: y4 :: s1 :: m1 :: m2 :: s2 :: d1 :: d2 :: [] =>
    if s1 = '-' ∧ s2 = '-' ∧ y1.isDigit ∧ y2.isDigit ∧ y3.isDigit ∧ y4.isDigit ∧
       m1.isDigit ∧ m2.isDigit ∧ d1.isDigit ∧ d2.isDigit then
      let y := digitsVal [y1, y2, y3, y4]
      let m := digitsVal [m1, m2]
      let d := digitsVal [d1, d2]
      if 1 ≤ m ∧ m ≤ 12 ∧ 1 ≤ d ∧ d ≤ daysInMonth (y : Int) m then
        some ⟨(y : Int), m, d⟩
      else none
    else none
  | _ => none

/-- `parseDate` of `backend/utils/dateUtils.js`, translated branch by
branch.  `native` is the host's `new Date(string)` parser (an oracle
parameter; `isoNative` is the concrete instance used by the
pipeline), `now` is the current instant used by relative dates.
`if (!dateStr) return null` is the empty-string guard; each regex
branch is the corresponding leftmost matcher; a month-name regex
match whose name is not in the table falls through to the numeric
branches, exactly as in the code. -/
def parseDate (native : List Char → Option Instant) (now : Instant)
    (s : List Char) : Option Instant :=
  if s = [] then none
  else
    let t := jsTrim s
    match native t with
    | some d => some d
    | none =>
      match matchRel t with
      | some (n, u) => some (applyRel now n u)
      | none =>
        match matchMonth t with
        | some (name, day, year) =>
          match monthLookup name with
          | some mi => some (jsMkDate (year : Int) (mi : Int) (day : Int))
          | none => numericChain t
        | none => numericChain t

/-- `formatDate` of `backend/utils/dateUtils.js` on a (non-null,
valid) date: `${year}-${month}-${day}` where only month and day are
`padStart(2, '0')`-padded. -/
def formatDate (d : Instant) : List Char :=
  intChars d.year ++ '-' :: jsPadStart2 (natChars d.month) ++ '-' :: jsPadStart2 (natChars d.day)

/-- `isDateInRange` of `backend/utils/dateUtils.js`; `none` models a
`null` argument (`if (!date || !startDate || !endDate) return false`). -/
def isDateInRange (date startDate endDate : Option Instant) : Bool :=
  match date, startDate, endDate with
  | some d, some s, some e => instLe s d && instLe d e
  | _, _, _ => false

/-! ## Review data model and per-review extraction -/

/-- JS `parseFloat`: leading optional sign, digits, optional decimal
fraction; `none` models `NaN` (no parsable leading number).  `NaN`
is still a JS number, so a `Review.rating` of `none` is a number.
(The exponent and `Infinity` forms JS also accepts are not modelled;
no rating input considered here uses them.) -/
def jsParseFloat (l : List Char) : Option ℚ :=
  let l1 := l.dropWhile isWsChar
  let (sgn, l2) : ℚ × List Char :=
    match l1 with
    | '-' :: r => (-1, r)
    | '+' :: r => (1, r)
    | _ => (1, l1)
  let ip := l2.takeWhile Char.isDigit
  let rest := l2.dropWhile Char.isDigit
  match rest with
  | '.' :: r =>
    let fp := r.takeWhile Char.isDigit
    if ip = [] ∧ fp = [] then none
    else some (sgn * ((digitsVal ip : ℚ) + (digitsVal fp : ℚ) / ((10 : ℚ) ^ fp.length)))
  | _ => if ip = [] then none else some (sgn * (digitsVal ip : ℚ))

/-- The reviewer sub-object of a `Review`. -/
structure Reviewer where
  name : List Char
  info : List Char
deriving DecidableEq, Repr

/-- The `Review` record pushed by every scraper's page extraction.
`rating` is a JS number: `some q` a finite value, `none` the `NaN`
produced by `parseFloat` on a non-numeric `data-rating` attribute. -/
structure Review where
  title : List Char
  description : List Char
  date : List Char
  rating : Option ℚ
  reviewer : Reviewer
  source : List Char
deriving DecidableEq, Repr

/-- A `querySelector`-style rating element: its `data-rating`
attribute (`none` = attribute absent) and its number of
`.filled-star` / `.star-filled` descendants. -/
structure RatingEl where
  dataRating : Option (List Char)
  filledStars : Nat
deriving DecidableEq, Repr

/-- One matched review container on a TrustRadius or Capterra page:
for each field selector, the `innerText` of the first matching
descendant (`none` = no element matched).  Texts are raw
(untrimmed); the extraction code applies `.trim()`. -/
structure SiteRaw where
  titleEl : Option (List Char)
  ratingEl : Option RatingEl
  bodyEl : Option (List Char)
  prosEl : Option (List Char)
  consEl : Option (List Char)
  dateEl : Option (List Char)
  reviewerEl : Option (List Char)
  detailsEl : Option (List Char)
deriving DecidableEq, Repr

/-- `el ? el.innerText.trim() : fallback`. -/
def optTrim (o : Option (List Char)) (fallback : List Char) : List Char :=
  match o with
  | some t => jsTrim t
  | none => fallback

/-- The shared rating logic of the TrustRadius and Capterra
extractors: `data-rating` attribute if present and non-empty (JS
truthiness) parsed with `parseFloat`, otherwise the filled-star
count, otherwise 0. -/
def siteRating (o : Option RatingEl) : Option ℚ :=
  match o with
  | none => some 0
  | some re =>
    match re.dataRating with
    | some ds => if ds = [] then some (re.filledStars : ℚ) else jsParseFloat ds
    | none => some (re.filledStars : ℚ)

/-- `[mainReview, pros ? `Pros: ...` : '', cons ? ...].filter(Boolean)
.join('\\n\\n')` — the separator in the source is the literal
backslash-n pair. -/
def joinReviewText (mainReview pros cons : List Char) : List Char :=
  let parts := [mainReview,
    (if pros = [] then [] else ("Pros: ").data ++ pros),
    (if cons = [] then [] else ("Cons: ").data ++ cons)]
  List.intercalate ("\\n\\n").data (parts.filter (fun p => ¬ p = []))

/-- The per-container review built by `scrapeTrustRadiusReviews`'s
`page.evaluate` (trustRadiusScraper.js lines 88-145). -/
def trMkReview (r : SiteRaw) : Review :=
  let reviewText := joinReviewText (optTrim r.bodyEl []) (optTrim r.prosEl []) (optTrim r.consEl [])
  { title := optTrim r.titleEl ("No Title").data
    description := if reviewText = [] then ("No review content available").data else reviewText
    date := optTrim r.dateEl []
    rating := siteRating r.ratingEl
    reviewer := { name := optTrim r.reviewerEl ("Anonymous").data
                  info := optTrim r.detailsEl [] }
    source := ("TrustRadius").data }

/-- The per-container review built by `scrapeCapterraReviews`'s
`page.evaluate` (capterraScraper.js lines 77-138). -/
def capMkReview (r : SiteRaw) : Review :=
  let reviewText := joinReviewText (optTrim r.bodyEl []) (optTrim r.prosEl []) (optTrim r.consEl [])
  { title := optTrim r.titleEl ("No Title").data
    description := if reviewText = [] then ("No review content available").data else reviewText
    date := optTrim r.dateEl []
    rating := siteRating r.ratingEl
    reviewer := { name := optTrim r.reviewerEl ("Anonymous").data
                  info := optTrim r.detailsEl [] }
    source := ("Capterra").data }

/-- A G2 rating candidate element: its `data-rating` attribute and
its `innerText` (`none` models an undefined `innerText`). -/
structure G2RatingEl where
  dataRating : Option (List Char)
  text : Option (List Char)
deriving DecidableEq, Repr

/-- One matched review container on a G2 page: for each field, the
per-candidate-selector `innerText` results (`none` = selector matched
no element), in selector order. -/
structure G2Raw where
  titleCands : List (Option (List Char))
  ratingCands : List (Option G2RatingEl)
  textCands : List (Option (List Char))
  dateCands : List (Option (List Char))
  nameCands : List (Option (List Char))
  infoCands : List (Option (List Char))
deriving DecidableEq, Repr

/-- G2's `findText`: the first candidate element whose trimmed
`innerText` is non-empty yields that trimmed text; otherwise `''`. -/
def findText : List (Option (List Char)) → List Char
  | [] => []
  | none :: rest => findText rest
  | some t :: rest => if jsTrim t = [] then findText rest else jsTrim t

/-- Match of G2's rating regex `/([0-9]\.[0-9]|[0-5])/` at one
position: a `d.d` triple is preferred over a single `[0-5]`. -/
def g2RatingTokenAt : List Char → Option (List Char)
  | a :: '.' :: b :: _ =>
    if a.isDigit then
      (if b.isDigit then some [a, '.', b]
       else if a ≤ '5' then some [a] else none)
    else none
  | a :: _ => if a.isDigit ∧ a ≤ '5' then some [a] else none
  | [] => none

/-- Leftmost match of G2's rating regex. -/
def g2RatingToken (l : List Char) : Option (List Char) :=
  scanOpt g2RatingTokenAt l

/-- G2's rating loop over its candidate selectors (g2Scraper.js lines
237-256): a present element's non-empty `data-rating` is
`parseFloat`ed; otherwise a rating token matched in that element's
trimmed text is `parseFloat`ed; otherwise the next candidate is
tried; the initial 0 stands when no candidate yields a value. -/
def g2Rating : List (Option G2RatingEl) → Option ℚ
  | [] => some 0
  | none :: rest => g2Rating rest
  | some re :: rest =>
    let viaText :=
      match re.text with
      | some tx =>
        if jsTrim tx = [] then g2Rating rest
        else
          match g2RatingToken (jsTrim tx) with
          | some tok => jsParseFloat tok
          | none => g2Rating rest
      | none => g2Rating rest
    match re.dataRating with
    | some ds => if ds = [] then viaText else jsParseFloat ds
    | none => viaText

/-- The per-container review built by `scrapeG2Reviews`'s
`page.evaluate` (g2Scraper.js lines 216-290). -/
def g2MkReview (r : G2Raw) : Review :=
  let title := findText r.titleCands
  let reviewText := findText r.textCands
  let reviewerName := findText r.nameCands
  { title := if title = [] then ("No Title").data else title
    description := if reviewText = [] then ("No review text available").data else reviewText
    date := findText r.dateCands
    rating := g2Rating r.ratingCands
    reviewer := { name := if reviewerName = [] then ("Anonymous").data else reviewerName
                  info := findText r.infoCands }
    source := ("G2").data }

/-! ## The paginated extraction driver -/

/-- Structured result of one review scraper run: the
`{ success: true, data }` / `{ success: false, error }` values. -/
inductive ScrapeResult where
  | success (data : List Review)
  | failure (error : List Char)
deriving DecidableEq, Repr

/-- Outcome of the browser interactions of the pagination loop, per
current page number (1-based): the review containers matched on the
page shown at that step, the result of the next-button probe, and
whether the click-and-wait navigation to the next page succeeds. -/
structure PageEnv (Raw : Type) where
  rawItems : Nat → List Raw
  hasNext : Nat → Bool
  navOk : Nat → Bool

/-- The TrustRadius/Capterra pagination loop (`while (hasNextPage &&
currentPage <= maxPages)`), fuel-driven: fuel `maxPages` suffices
from page 1, since the loop advances the page only while
`currentPage < maxPages`.  Returns the accumulated reviews and the
number of page extractions performed.  A failed navigation is caught
by `.catch(error => { hasNextPage = false; })`, ending the loop with
the reviews collected so far. -/
def scrapeLoopAux {Raw : Type} (mk : Raw → Review) (env : PageEnv Raw)
    (maxPages : Nat) : Nat → Nat → List Review → List Review × Nat
  | 0, _, acc => (acc, 0)
  | fuel + 1, cur, acc =>
    if cur ≤ maxPages then
      let acc' := acc ++ (env.rawItems cur).map mk
      if env.hasNext cur = true ∧ cur < maxPages then
        (if env.navOk cur = true then
          let r := scrapeLoopAux mk env maxPages fuel (cur + 1) acc'
          (r.1, r.2 + 1)
        else (acc', 1))
      else (acc', 1)
    else (acc, 0)

/-- The pagination loop from page 1 with empty accumulator. -/
def scrapeLoop {Raw : Type} (mk : Raw → Review) (env : PageEnv Raw)
    (maxPages : Nat) : List Review × Nat :=
  scrapeLoopAux mk env maxPages maxPages 1 []

/-- Outcome of the browser interactions of G2's pagination loop: as
`PageEnv`, plus the outcome of the scroll-and-click fallback run by
the inner `.catch` when the primary click-and-wait navigation fails. -/
structure G2PageEnv where
  rawItems : Nat → List G2Raw
  hasNext : Nat → Bool
  navOk : Nat → Bool
  fallback : Nat → Except (List Char) Unit

/-- The JS value of g2Scraper's `hasNextPage` variable: the boolean
`true` it is initialised with (line 188), or the object
`{ hasNext: ... }` returned by the next-button probe (lines 299-316)
and assigned by the failure paths (line 340, the outer catch, and
line 343, the else branch). -/
inductive G2HasNext where
  | boolVal (b : Bool)
  | objVal (hasNext : Bool)
deriving DecidableEq, Repr

/-- JS truthiness of the `hasNextPage` value: a boolean is its own
truth value; an object is always truthy — in particular
`{ hasNext: false }` is truthy. -/
def G2HasNext.truthy : G2HasNext → Bool
  | .boolVal b => b
  | .objVal _ => true

/-- Account for the page extraction performed by one loop iteration:
add 1 to the extraction count of the remaining iterations' outcome. -/
def g2Tick (r : List Review × Nat × Bool) : List Review × Nat × Bool :=
  (r.1, r.2.1 + 1, r.2.2)

/-- The G2 pagination loop (g2Scraper.js lines 186-345), fuel-driven.
The condition `while (hasNextPage && currentPage <= maxPages)` tests
the JS truthiness of `hasNextPage`; the probe at line 299 always
assigns an object, which is truthy even as `{ hasNext: false }`, so
from the second iteration on the condition is just
`currentPage <= maxPages` — and `currentPage` increments only under
`currentPage < maxPages` (line 319), so once entered the loop never
exits.  Each iteration extracts the current page, probes the next
control, and either navigates (`currentPage++`, reached both on a
successful click-and-wait and after a resolving scroll-and-click
fallback in the inner `.catch`), or assigns the — still truthy —
object `{ hasNext: false }` (outer catch when the fallback throws,
else branch when the probe found nothing or the cap is reached) and
iterates again on the same page.  Returns the accumulated reviews,
the number of page extractions performed within the given fuel, and
whether the loop exited on its own (`true` only when the loop
condition failed). -/
def g2LoopAux (env : G2PageEnv) (maxPages : Nat) :
    Nat → Nat → G2HasNext → List Review → List Review × Nat × Bool
  | 0, _, _, acc => (acc, 0, false)
  | fuel + 1, cur, hnp, acc =>
    if hnp.truthy = true ∧ cur ≤ maxPages then
      (if env.hasNext cur = true ∧ cur < maxPages then
        (if env.navOk cur = true then
          g2Tick (g2LoopAux env maxPages fuel (cur + 1) (.objVal (env.hasNext cur))
            (acc ++ (env.rawItems cur).map g2MkReview))
        else
          match env.fallback cur with
          | .ok _ =>
            g2Tick (g2LoopAux env maxPages fuel (cur + 1) (.objVal (env.hasNext cur))
              (acc ++ (env.rawItems cur).map g2MkReview))
          | .error _ =>
            g2Tick (g2LoopAux env maxPages fuel cur (.objVal false)
              (acc ++ (env.rawItems cur).map g2MkReview)))
      else
        g2Tick (g2LoopAux env maxPages fuel cur (.objVal false)
          (acc ++ (env.rawItems cur).map g2MkReview)))
    else (acc, 0, true)

/-- The G2 pagination loop from its initial state (`currentPage = 1`,
`hasNextPage = true`), following it for `fuel` iterations. -/
def g2Loop (env : G2PageEnv) (maxPages fuel : Nat) : List Review × Nat × Bool :=
  g2LoopAux env maxPages fuel 1 (.boolVal true) []

/-! ## The review pipeline orchestrators (one per source) -/

/-- The date-range filter applied by every scraper to the accumulated
reviews: parse each review's date string with `parseDate` (with the
`isoNative` host parser and current instant `now`); an unparseable
date excludes the review; otherwise keep it when
`reviewDate >= startDate && reviewDate <= endDate`. -/
def dateKeep (now startDate endDate : Instant) (r : Review) : Bool :=
  match parseDate isoNative now r.date with
  | none => false
  | some d => instLe startDate d && instLe d endDate

/-- `allReviews.filter(review => ...)` of each scraper. -/
def dateFilter (now startDate endDate : Instant) (rs : List Review) : List Review :=
  rs.filter (dateKeep now startDate endDate)

/-- The page cap default of all three scrapers (`maxPages = 10`). -/
def defaultMaxPages : Nat := 10

/-- Outcome of the TrustRadius pre-loop navigation steps
(trustRadiusScraper.js lines 18-69): each `page.goto` either resolves
or throws (the thrown message is caught by the outer `catch`), the
`Page Not Found` probe, and the product link found by the search
fallback. -/
structure TREnv where
  gotoDirect : Except (List Char) Unit
  notFoundIndicator : Bool
  gotoSearch : Except (List Char) Unit
  foundProductUrl : Option (List Char)
  gotoProduct : Except (List Char) Unit
  gotoReviews : Except (List Char) Unit
  pages : PageEnv SiteRaw
  now : Instant

/-- The `Company "..." not found on TrustRadius` failure message. -/
def trNotFoundMsg (companyName : List Char) : List Char :=
  ("Company \"").data ++ companyName ++ ("\" not found on TrustRadius").data

/-- `scrapeTrustRadiusReviews` (trustRadiusScraper.js): direct
product URL, `Page Not Found` probe, search fallback, pagination
loop, date filter.  Every exception of the pre-loop phase is caught
by the outer `catch` and returned as `{ success: false, error }`. -/
def scrapeTrustRadiusReviews (env : TREnv) (companyName : List Char)
    (startDate endDate : Instant) (maxPages : Nat) : ScrapeResult :=
  match env.gotoDirect with
  | .error e => .failure e
  | .ok _ =>
    if env.notFoundIndicator then
      match env.gotoSearch with
      | .error e => .failure e
      | .ok _ =>
        match env.foundProductUrl with
        | none => .failure (trNotFoundMsg companyName)
        | some _ =>
          match env.gotoProduct with
          | .error e => .failure e
          | .ok _ =>
            match env.gotoReviews with
            | .error e => .failure e
            | .ok _ =>
              .success (dateFilter env.now startDate endDate
                (scrapeLoop trMkReview env.pages maxPages).1)
    else
      match env.gotoReviews with
      | .error e => .failure e
      | .ok _ =>
        .success (dateFilter env.now startDate endDate
          (scrapeLoop trMkReview env.pages maxPages).1)

/-- Outcome of the Capterra pre-loop navigation steps
(capterraScraper.js lines 18-58): the search-page `goto`, the product
link found on the search page (`null` when no product card matches),
and the `goto` of the reviews page. -/
structure CapEnv where
  gotoSearch : Except (List Char) Unit
  productFound : Option (List Char)
  gotoReviews : Except (List Char) Unit
  pages : PageEnv SiteRaw
  now : Instant

/-- The `Company "..." not found on Capterra` failure message. -/
def capNotFoundMsg (companyName : List Char) : List Char :=
  ("Company \"").data ++ companyName ++ ("\" not found on Capterra").data

/-- `scrapeCapterraReviews` (capterraScraper.js): search page, product
lookup, pagination loop, date filter; exceptions are caught by the
outer `catch` into `{ success: false, error }`. -/
def scrapeCapterraReviews (env : CapEnv) (companyName : List Char)
    (startDate endDate : Instant) (maxPages : Nat) : ScrapeResult :=
  match env.gotoSearch with
  | .error e => .failure e
  | .ok _ =>
    match env.productFound with
    | none => .failure (capNotFoundMsg companyName)
    | some _ =>
      match env.gotoReviews with
      | .error e => .failure e
      | .ok _ =>
        .success (dateFilter env.now startDate endDate
          (scrapeLoop capMkReview env.pages maxPages).1)

/-- The compiled-in demo-data toggle of g2Scraper.js
(`const useMockData = true`). -/
def useMockData : Bool := true

/-- Entry 1 of the G2 demo dataset (g2Scraper.js lines 18-28). -/
def mockReview1 : Review :=
  { title := ("Great Team Collaboration Tool").data
    description := ("Slack has transformed how our team communicates. The channels keep topics organized and the integrations with other tools make it a central hub for notifications.").data
    date := ("June 15, 2025").data
    rating := some (9 / 2)
    reviewer := { name := ("John D.").data, info := ("Mid-Market (51-1000 emp.)").data }
    source := ("G2 (Demo Data)").data }

/-- Entry 2 of the G2 demo dataset (lines 29-39). -/
def mockReview2 : Review :=
  { title := ("Efficient Communication Platform").data
    description := ("We switched from email to Slack for internal communications and have seen dramatic improvements in response time and team coordination.").data
    date := ("May 22, 2025").data
    rating := some 5
    reviewer := { name := ("Sarah M.").data, info := ("Enterprise (>1000 emp.)").data }
    source := ("G2 (Demo Data)").data }

/-- Entry 3 of the G2 demo dataset (lines 40-50). -/
def mockReview3 : Review :=
  { title := ("Good but Has Limitations").data
    description := ("Slack works well for quick communications but can get messy with too many channels. Search functionality could be improved to find older messages more easily.").data
    date := ("April 3, 2025").data
    rating := some (7 / 2)
    reviewer := { name := ("Robert L.").data, info := ("Small Business (<50 emp.)").data }
    source := ("G2 (Demo Data)").data }

/-- Entry 4 of the G2 demo dataset (lines 51-61). -/
def mockReview4 : Review :=
  { title := ("Essential Remote Working Tool").data
    description := ("Since our team went remote, Slack has been crucial for maintaining culture and communication. The video calls and screen sharing features work well for quick meetings.").data
    date := ("March 17, 2025").data
    rating := some 4
    reviewer := { name := ("Emily K.").data, info := ("Mid-Market (51-1000 emp.)").data }
    source := ("G2 (Demo Data)").data }

/-- Entry 5 of the G2 demo dataset (lines 62-72). -/
def mockReview5 : Review :=
  { title := ("Great Integrations").data
    description := ("The ability to integrate with so many other tools makes Slack incredibly powerful. We use it with GitHub, Jira, and Google Drive which streamlines our workflow.").data
    date := ("February 8, 2025").data
    rating := some 5
    reviewer := { name := ("Michael W.").data, info := ("Enterprise (>1000 emp.)").data }
    source := ("G2 (Demo Data)").data }

/-- The fixed 5-review demo dataset of `scrapeG2Reviews`. -/
def mockData : List Review :=
  [mockReview1, mockReview2, mockReview3, mockReview4, mockReview5]

/-- The URL-candidate loop of the G2 real branch (lines 159-175):
each entry is the outcome of the `hasReviews` probe after navigating
to one candidate URL (a thrown `page.evaluate` propagates to the
outer `catch`; a `page.goto` error is swallowed by its inline
`.catch`).  The loop stops at the first candidate with reviews. -/
def g2FindValid : List (Except (List Char) Bool) → Except (List Char) Bool
  | [] => .ok false
  | .error e :: _ => .error e
  | .ok true :: _ => .ok true
  | .ok false :: rest => g2FindValid rest

/-- The `Reviews not found for "..." on G2` failure message. -/
def g2NotFoundMsg (companyName : List Char) : List Char :=
  ("Reviews not found for \"").data ++ companyName ++ ("\" on G2").data

/-- Outcome of the G2 pre-loop browser interactions: the per-URL
`hasReviews` probes (three candidate URLs in the code) and the debug
screenshot, plus the pagination-page outcomes. -/
structure G2Env where
  urlChecks : List (Except (List Char) Bool)
  screenshot : Except (List Char) Unit
  pages : G2PageEnv
  now : Instant

/-- Marker for a control path that produces no value: for
`maxPages ≥ 1` the G2 pagination loop never exits (its while
condition tests the truthiness of an object; see `g2Loop_no_exit`),
so the filter-and-return code after it is unreachable and the
function never returns on this path.  The marker only keeps the model
total; the whole branch is dead code under `useMockData = true`. -/
def g2LoopStuck : ScrapeResult :=
  .failure ("unreachable: the G2 pagination loop does not terminate").data

/-- `scrapeG2Reviews` (g2Scraper.js): with the compiled-in
`useMockData = true`, the mock branch filters the demo dataset by the
date range and returns it as a success; the real branch (dead under
the flag) tries the candidate URLs, screenshots, and enters the
pagination loop.  With `maxPages = 0` the loop body never runs
(`1 <= 0` fails) and the empty accumulation is filtered and returned;
with `maxPages ≥ 1` the loop never exits (`g2Loop_no_exit`), so the
path yields no value, modelled by `g2LoopStuck`. -/
def scrapeG2Reviews (env : G2Env) (companyName : List Char)
    (startDate endDate : Instant) (maxPages : Nat) : ScrapeResult :=
  if useMockData then
    .success (mockData.filter (dateKeep env.now startDate endDate))
  else
    match g2FindValid env.urlChecks with
    | .error e => .failure e
    | .ok false => .failure (g2NotFoundMsg companyName)
    | .ok true =>
      match env.screenshot with
      | .error e => .failure e
      | .ok _ =>
        if maxPages = 0 then .success (dateFilter env.now startDate endDate [])
        else g2LoopStuck

/-! ## Claim-side definitions -/

/-- First-match-wins over an ordered list of parser strategies (the
spec's "ordered chain of independent parser strategies"). -/
def firstSome : List (List Char → Option Instant) → List Char → Option Instant
  | [], _ => none
  | f :: fs, t =>
    match f t with
    | some d => some d
    | none => firstSome fs t

/-- Rule 2 of the spec's priority order: relative `"<N> <unit> ago"`. -/
def relRule (now : Instant) (t : List Char) : Option Instant :=
  (matchRel t).map (fun p => applyRel now p.1 p.2)

/-- Rule 3: `"<MonthName> <Day>, <Year>"` with a successful lookup in
the 12-month table. -/
def monthNameRule (t : List Char) : Option Instant :=
  (matchMonth t).bind (fun p =>
    (monthLookup p.1).map (fun mi => jsMkDate (p.2.2 : Int) (mi : Int) (p.2.1 : Int)))

/-- Rule 4: numeric `YYYY-M-D` / `YYYY/M/D`. -/
def ymdRule (t : List Char) : Option Instant :=
  (matchYMD t).map (fun p => jsMkDate (p.1 : Int) ((p.2.1 : Int) - 1) (p.2.2 : Int))

/-- Rule 5: numeric `D-M-YYYY` / `D/M/YYYY`. -/
def dmyRule (t : List Char) : Option Instant :=
  (matchDMY t).map (fun p => jsMkDate (p.2.2 : Int) ((p.2.1 : Int) - 1) (p.1 : Int))

/-- The reviews of pages `cur`, `cur+1`, ..., `cur+cnt-1` in page
order (the expected accumulation of a clean run over `cnt` pages). -/
def pagesConcat {Raw : Type} (mk : Raw → Review) (env : PageEnv Raw) :
    Nat → Nat → List Review
  | _, 0 => []
  | cur, cnt + 1 => (env.rawItems cur).map mk ++ pagesConcat mk env (cur + 1) cnt

/-- The zero-padded ISO rendering `YYYY-MM-DD` of a calendar date
with `y ≤ 9999`, `m, d ≤ 99`: the spec's "valid ISO-like date
strings" are exactly `isoString y m d` for in-range `y`, `m`, `d`. -/
def isoString (y m d : Nat) : List Char :=
  [digitChar (y / 1000), digitChar (y / 100 % 10),
   digitChar (y / 10 % 10), digitChar (y % 10), '-',
   digitChar (m / 10), digitChar (m % 10), '-',
   digitChar (d / 10), digitChar (d % 10)]

/-- The calendar dates denoted by the five demo reviews' date strings
("June 15, 2025", "May 22, 2025", "April 3, 2025", "March 17, 2025",
"February 8, 2025"). -/
def mockDates : List Instant :=
  [⟨2025, 6, 15⟩, ⟨2025, 5, 22⟩, ⟨2025, 4, 3⟩, ⟨2025, 3, 17⟩, ⟨2025, 2, 8⟩]

/-! ## Concrete test environments (for witnesses and counterexamples) -/

/-- A distinguishable review container for page `i`. -/
def demoRaw (i : Nat) : SiteRaw :=
  { titleEl := some (("Review ").data ++ natChars i)
    ratingEl := none
    bodyEl := some (("Body ").data ++ natChars i)
    prosEl := none, consEl := none
    dateEl := some ("2025-01-15").data
    reviewerEl := some (("Reviewer ").data ++ natChars i)
    detailsEl := none }

/-- A distinguishable G2 review container for page `i`. -/
def demoG2Raw (i : Nat) : G2Raw :=
  { titleCands := [some (("Review ").data ++ natChars i)]
    ratingCands := []
    textCands := [some (("Body ").data ++ natChars i)]
    dateCands := [some ("2025-01-15").data]
    nameCands := [some (("Reviewer ").data ++ natChars i)]
    infoCands := [] }

/-- Five available pages, a live next control after every page,
navigation always succeeding: the cap-2 scenario of the spec. -/
def fivePageEnv : PageEnv SiteRaw :=
  { rawItems := fun i => if i ≤ 5 then [demoRaw i] else []
    hasNext := fun _ => true
    navOk := fun _ => true }

/-- Pages with a live next control where the click-and-wait
navigation from page 2 to page 3 throws. -/
def navFailAt2Env : PageEnv SiteRaw :=
  { rawItems := fun i => [demoRaw i]
    hasNext := fun _ => true
    navOk := fun i => decide (i < 2) }

/-- A TrustRadius run whose locate phase succeeds directly and whose
pagination hits a navigation failure after page 2. -/
def trEnvNavFail : TREnv :=
  { gotoDirect := .ok (), notFoundIndicator := false
    gotoSearch := .ok (), foundProductUrl := none
    gotoProduct := .ok (), gotoReviews := .ok ()
    pages := navFailAt2Env, now := ⟨2025, 6, 15⟩ }

/-- A Capterra run whose locate phase succeeds and whose pagination
hits a navigation failure after page 2. -/
def capEnvNavFail : CapEnv :=
  { gotoSearch := .ok ()
    productFound := some ("https://www.capterra.com/p/slack/reviews").data
    gotoReviews := .ok ()
    pages := navFailAt2Env, now := ⟨2025, 6, 15⟩ }

/-- G2 pages with five available pages, a live next control after
every page, and successful navigation throughout. -/
def g2FivePageEnv : G2PageEnv :=
  { rawItems := fun i => [demoG2Raw i]
    hasNext := fun _ => true
    navOk := fun _ => true
    fallback := fun _ => .ok () }

/-- G2 pages where the primary navigation from page 1 throws but the
scroll-and-click fallback resolves. -/
def g2FallbackOkEnv : G2PageEnv :=
  { rawItems := fun i => [demoG2Raw i]
    hasNext := fun _ => true
    navOk := fun _ => false
    fallback := fun _ => .ok () }

/-- G2 pages where the primary navigation from page 2 throws and the
scroll-and-click fallback also throws. -/
def g2FallbackFailEnv : G2PageEnv :=
  { rawItems := fun i => [demoG2Raw i]
    hasNext := fun _ => true
    navOk := fun i => decide (i < 2)
    fallback := fun _ => .error ("TypeError: page.waitForTimeout is not a function").data }

/-- A container whose date element holds an unparseable string. -/
def badDateRaw : SiteRaw :=
  { titleEl := some ("Ok title").data
    ratingEl := none
    bodyEl := some ("Ok body").data
    prosEl := none, consEl := none
    dateEl := some ("last Tuesday-ish").data
    reviewerEl := some ("R").data
    detailsEl := none }

/-- One page containing a review with a parseable date and one whose
date cannot be parsed. -/
def mixedDatesEnv : PageEnv SiteRaw :=
  { rawItems := fun i => if i = 1 then [demoRaw 1, badDateRaw] else []
    hasNext := fun _ => false
    navOk := fun _ => true }

/-- A TrustRadius run over `mixedDatesEnv` with a working locate. -/
def trEnvMixed : TREnv :=
  { gotoDirect := .ok (), notFoundIndicator := false
    gotoSearch := .ok (), foundProductUrl := none
    gotoProduct := .ok (), gotoReviews := .ok ()
    pages := mixedDatesEnv, now := ⟨2025, 6, 15⟩ }

/-- A Capterra run over `mixedDatesEnv` with a working locate. -/
def capEnvMixed : CapEnv :=
  { gotoSearch := .ok ()
    productFound := some ("https://www.capterra.com/p/slack/reviews").data
    gotoReviews := .ok ()
    pages := mixedDatesEnv, now := ⟨2025, 6, 15⟩ }

/-- A TrustRadius run whose very first navigation throws. -/
def trEnvThrow : TREnv :=
  { gotoDirect := .error ("net::ERR_NAME_NOT_RESOLVED").data
    notFoundIndicator := false
    gotoSearch := .ok (), foundProductUrl := none
    gotoProduct := .ok (), gotoReviews := .ok ()
    pages := mixedDatesEnv, now := ⟨2025, 6, 15⟩ }

/-- A TrustRadius run where neither the direct URL nor the search
finds the company. -/
def trEnvNotFound : TREnv :=
  { gotoDirect := .ok (), notFoundIndicator := true
    gotoSearch := .ok (), foundProductUrl := none
    gotoProduct := .ok (), gotoReviews := .ok ()
    pages := mixedDatesEnv, now := ⟨2025, 6, 15⟩ }

/-- A Capterra run whose search navigation throws. -/
def capEnvThrow : CapEnv :=
  { gotoSearch := .error ("Navigation timeout of 60000 ms exceeded").data
    productFound := none
    gotoReviews := .ok ()
    pages := mixedDatesEnv, now := ⟨2025, 6, 15⟩ }

/-- A Capterra run where no product card matches the company. -/
def capEnvNotFound : CapEnv :=
  { gotoSearch := .ok ()
    productFound := none
    gotoReviews := .ok ()
    pages := mixedDatesEnv, now := ⟨2025, 6, 15⟩ }

/-- A G2 environment (only its `now` reaches the mock branch). -/
def g2EnvA : G2Env :=
  { urlChecks := [], screenshot := .ok ()
    pages := g2FallbackOkEnv, now := ⟨2025, 6, 15⟩ }

/-- A second, different G2 environment. -/
def g2EnvB : G2Env :=
  { urlChecks := [.error ("boom").data], screenshot := .error ("fail").data
    pages := g2FallbackFailEnv, now := ⟨1999, 1, 1⟩ }

/-- A container whose title and reviewer elements exist but hold only
whitespace text. -/
def blankTitleRaw : SiteRaw :=
  { titleEl := some ("   ").data
    ratingEl := none
    bodyEl := some ("Some body text").data
    prosEl := none, consEl := none
    dateEl := some ("2025-01-15").data
    reviewerEl := some (" ").data
    detailsEl := none }

/-- A single-page environment emitting `blankTitleRaw`. -/
def blankTitleEnv : PageEnv SiteRaw :=
  { rawItems := fun i => if i = 1 then [blankTitleRaw] else []
    hasNext := fun _ => false
    navOk := fun _ => true }

/-- A review container none of whose field selectors matched. -/
def emptyElsRaw : SiteRaw :=
  { titleEl := none, ratingEl := none, bodyEl := none, prosEl := none
    consEl := none, dateEl := none, reviewerEl := none, detailsEl := none }

/-- A G2 review container none of whose candidate selectors matched. -/
def emptyG2Raw : G2Raw :=
  { titleCands := [], ratingCands := [], textCands := []
    dateCands := [], nameCands := [], infoCands := [] }

/-! ## Theorems -/

/-- C5: `isDateInRange(d, start, end)` returns true if and only if
`start <= d` and `d <= end`; a date equal to either bound is included
(both bounds inclusive, since `instLe` is reflexive). -/
theorem isDateInRange_iff (d s e : Instant) :
    isDateInRange (some d) (some s) (some e) = true ↔
      (instLe s d = true ∧ instLe d e = true) := by
  simp [isDateInRange]

theorem numericChain_eq (t : List Char) :
    numericChain t = firstSome [ymdRule, dmyRule] t := by
  cases hy : matchYMD t with
  | some p =>
    rcases p with ⟨y, mo, d⟩
    simp [numericChain, firstSome, ymdRule, hy]
  | none =>
    cases hd : matchDMY t with
    | some p =>
      rcases p with ⟨a, b, c⟩
      simp [numericChain, firstSome, ymdRule, dmyRule, hy, hd]
    | none => simp [numericChain, firstSome, ymdRule, dmyRule, hy, hd]

/-- C1: for every input string, `parseDate` equals the first-match
chain over the five rules in the spec's priority order — native
parsing, relative "ago" expressions, month-name dates (with table
lookup), numeric `YYYY-M-D`, numeric `D-M-YYYY` — applied to the
trimmed input, and returns `null` for the empty string and whenever
no rule matches. -/
theorem parseDate_priority_order (native : List Char → Option Instant)
    (now : Instant) (s : List Char) :
    parseDate native now s =
      (if s = [] then none
       else firstSome [native, relRule now, monthNameRule, ymdRule, dmyRule] (jsTrim s))
    ∧ parseDate native now [] = none := by
  refine ⟨?_, rfl⟩
  by_cases hs : s = []
  · subst hs; rfl
  · simp only [parseDate, if_neg hs]
    cases hn : native (jsTrim s) with
    | some d => simp [firstSome, hn]
    | none =>
      simp only [firstSome, hn]
      cases hr : matchRel (jsTrim s) with
      | some p =>
        rcases p with ⟨n, u⟩
        simp [relRule, hr]
      | none =>
        simp only [relRule, hr, Option.map_none']
        cases hm : matchMonth (jsTrim s) with
        | some p =>
          rcases p with ⟨name, day, year⟩
          cases hl : monthLookup name with
          | some mi => simp [monthNameRule, hm, hl]
          | none => simp [monthNameRule, hm, hl, numericChain_eq, firstSome]
        | none => simp [monthNameRule, hm, numericChain_eq, firstSome]

theorem scrapeLoopAux_count_le {Raw : Type} (mk : Raw → Review)
    (env : PageEnv Raw) (maxPages : Nat) :
    ∀ fuel cur acc, (scrapeLoopAux mk env maxPages fuel cur acc).2 ≤ fuel := by
  intro fuel
  induction fuel with
  | zero => intro cur acc; simp [scrapeLoopAux]
  | succ f ih =>
    intro cur acc
    simp only [scrapeLoopAux]
    split
    · split
      · split
        · simpa using Nat.succ_le_succ (ih _ _)
        · simp
      · simp
    · simp

theorem g2LoopAux_no_exit (env : G2PageEnv) (maxPages : Nat) :
    ∀ fuel cur hnp acc, hnp.truthy = true → cur ≤ maxPages →
      (g2LoopAux env maxPages fuel cur hnp acc).2.1 = fuel
      ∧ (g2LoopAux env maxPages fuel cur hnp acc).2.2 = false := by
  intro fuel
  induction fuel with
  | zero => intro cur hnp acc h1 h2; exact ⟨rfl, rfl⟩
  | succ fuel ih =>
    intro cur hnp acc h1 h2
    simp only [g2LoopAux]
    rw [if_pos ⟨h1, h2⟩]
    by_cases hp : env.hasNext cur = true ∧ cur < maxPages
    · rw [if_pos hp]
      by_cases hn : env.navOk cur = true
      · rw [if_pos hn]
        have h := ih (cur + 1) (.objVal (env.hasNext cur))
          (acc ++ (env.rawItems cur).map g2MkReview) rfl (by omega)
        exact ⟨by simp [g2Tick, h.1], by simp [g2Tick, h.2]⟩
      · rw [if_neg hn]
        cases hfb : env.fallback cur with
        | ok u =>
          have h := ih (cur + 1) (.objVal (env.hasNext cur))
            (acc ++ (env.rawItems cur).map g2MkReview) rfl (by omega)
          exact ⟨by simp [g2Tick, h.1], by simp [g2Tick, h.2]⟩
        | error e =>
          have h := ih cur (.objVal false)
            (acc ++ (env.rawItems cur).map g2MkReview) rfl h2
          exact ⟨by simp [g2Tick, h.1], by simp [g2Tick, h.2]⟩
    · rw [if_neg hp]
      have h := ih cur (.objVal false)
        (acc ++ (env.rawItems cur).map g2MkReview) rfl h2
      exact ⟨by simp [g2Tick, h.1], by simp [g2Tick, h.2]⟩

theorem g2Loop_no_exit (env : G2PageEnv) (maxPages fuel : Nat) (hmp : 1 ≤ maxPages) :
    (g2Loop env maxPages fuel).2.1 = fuel ∧ (g2Loop env maxPages fuel).2.2 = false :=
  g2LoopAux_no_exit env maxPages fuel 1 (.boolVal true) [] rfl hmp

/-- C3 counterexample: the G2 pagination loop violates the page cap.
With cap 2, a live next control and clean navigation, after 5 loop
iterations it has performed 5 page extractions — more than
`maxPages = 2` — because its while condition tests the truthiness of
the probe's object result, and it has still not exited; from page 2
on it re-extracts the current page each iteration. -/
theorem g2_unbounded_extraction_cex :
    (g2Loop g2FivePageEnv 2 5).2.1 = 5
    ∧ ¬ (g2Loop g2FivePageEnv 2 5).2.1 ≤ 2
    ∧ (g2Loop g2FivePageEnv 2 5).2.2 = false
    ∧ (g2Loop g2FivePageEnv 2 5).1 =
        [g2MkReview (demoG2Raw 1), g2MkReview (demoG2Raw 2), g2MkReview (demoG2Raw 2),
         g2MkReview (demoG2Raw 2), g2MkReview (demoG2Raw 2)] := by
  exact ⟨by decide, by decide, by decide, by decide⟩

/-- C3 amended: the TrustRadius/Capterra pagination loop performs at
most `maxPages` page extractions (default cap 10), even with a next
control still present after the last allowed page, and in the cap-2 /
five-pages scenario accumulates exactly the items of pages 1 and 2 in
2 extraction steps.  The G2 pagination loop does not obey the cap:
`while (hasNextPage && ...)` tests the truthiness of the probe's
object result and `{ hasNext: false }` is truthy, so once entered
(`maxPages ≥ 1`) it never exits and performs one page extraction per
iteration without bound (see `g2_unbounded_extraction_cex`); that
loop is dead code in the compiled scraper, whose `useMockData = true`
branch performs no page extraction at all. -/
theorem page_cap_enforced :
    (∀ (Raw : Type) (mk : Raw → Review) (env : PageEnv Raw) (maxPages : Nat),
      (scrapeLoop mk env maxPages).2 ≤ maxPages)
    ∧ defaultMaxPages = 10
    ∧ fivePageEnv.hasNext 2 = true
    ∧ scrapeLoop trMkReview fivePageEnv 2 =
        ([trMkReview (demoRaw 1), trMkReview (demoRaw 2)], 2)
    ∧ (∀ (env : G2PageEnv) (maxPages fuel : Nat), 1 ≤ maxPages →
        (g2Loop env maxPages fuel).2.1 = fuel
        ∧ (g2Loop env maxPages fuel).2.2 = false) := by
  refine ⟨fun Raw mk env maxPages => scrapeLoopAux_count_le mk env maxPages maxPages 1 [],
          rfl, rfl, rfl,
          fun env maxPages fuel h => g2Loop_no_exit env maxPages fuel h⟩

theorem page_cap_enforced_witness :
    (scrapeLoop trMkReview fivePageEnv 2).2 ≤ 2
    ∧ defaultMaxPages = 10
    ∧ fivePageEnv.hasNext 2 = true
    ∧ scrapeLoop trMkReview fivePageEnv 2 =
        ([trMkReview (demoRaw 1), trMkReview (demoRaw 2)], 2)
    ∧ (g2Loop g2FivePageEnv 2 5).2.1 = 5
    ∧ (g2Loop g2FivePageEnv 2 5).2.2 = false := by
  have h := page_cap_enforced
  exact ⟨h.1 SiteRaw trMkReview fivePageEnv 2, h.2.1, h.2.2.1, h.2.2.2.1,
    (h.2.2.2.2 g2FivePageEnv 2 5 (by decide)).1,
    (h.2.2.2.2 g2FivePageEnv 2 5 (by decide)).2⟩

/-- C2: a review whose date string `parseDate` cannot parse is never
included by the date-range filter, and its presence never fails the
scrape: with a working locate phase, TrustRadius and Capterra still
return `{ success: true }` with the filtered accumulated reviews. -/
theorem unparseable_date_excluded (n s e : Instant) (r : Review)
    (hr : parseDate isoNative n r.date = none) :
    (∀ rs, r ∉ dateFilter n s e rs)
    ∧ (∀ (envT : TREnv) (c : List Char) (mp : Nat),
        envT.now = n → envT.gotoDirect = .ok () → envT.notFoundIndicator = false →
        envT.gotoReviews = .ok () →
        scrapeTrustRadiusReviews envT c s e mp =
          .success (dateFilter n s e (scrapeLoop trMkReview envT.pages mp).1))
    ∧ (∀ (envC : CapEnv) (c u : List Char) (mp : Nat),
        envC.now = n → envC.gotoSearch = .ok () → envC.productFound = some u →
        envC.gotoReviews = .ok () →
        scrapeCapterraReviews envC c s e mp =
          .success (dateFilter n s e (scrapeLoop capMkReview envC.pages mp).1)) := by
  refine ⟨?_, ?_, ?_⟩
  · intro rs hmem
    have h2 := (List.mem_filter.mp hmem).2
    simp [dateKeep, hr] at h2
  · intro envT c mp h1 h2 h3 h4
    simp [scrapeTrustRadiusReviews, h1, h2, h3, h4]
  · intro envC c u mp h1 h2 h3 h4
    simp [scrapeCapterraReviews, h1, h2, h3, h4]

theorem unparseable_date_excluded_witness :
    (∀ rs, trMkReview badDateRaw ∉ dateFilter ⟨2025, 6, 15⟩ ⟨2025, 1, 1⟩ ⟨2025, 12, 31⟩ rs)
    ∧ scrapeTrustRadiusReviews trEnvMixed ("Slack").data ⟨2025, 1, 1⟩ ⟨2025, 12, 31⟩ 10 =
        .success (dateFilter ⟨2025, 6, 15⟩ ⟨2025, 1, 1⟩ ⟨2025, 12, 31⟩
          (scrapeLoop trMkReview trEnvMixed.pages 10).1)
    ∧ scrapeCapterraReviews capEnvMixed ("Slack").data ⟨2025, 1, 1⟩ ⟨2025, 12, 31⟩ 10 =
        .success (dateFilter ⟨2025, 6, 15⟩ ⟨2025, 1, 1⟩ ⟨2025, 12, 31⟩
          (scrapeLoop capMkReview capEnvMixed.pages 10).1) := by
  have h := unparseable_date_excluded ⟨2025, 6, 15⟩ ⟨2025, 1, 1⟩ ⟨2025, 12, 31⟩
    (trMkReview badDateRaw) (by decide)
  exact ⟨h.1,
    h.2.1 trEnvMixed ("Slack").data 10 rfl rfl rfl rfl,
    h.2.2 capEnvMixed ("Slack").data
      ("https://www.capterra.com/p/slack/reviews").data 10 rfl rfl rfl rfl⟩

/-- C8: a thrown exception during the locate phase or initial
navigation, and a failed company lookup, are converted into the
structured value `{ success: false, error }`; and every scraper run
yields either a structured success or a structured failure — no
unhandled fault. -/
theorem locate_failure_structured (c : List Char) (s e : Instant) (mp : Nat) :
    (∀ (envT : TREnv) (err : List Char), envT.gotoDirect = .error err →
      scrapeTrustRadiusReviews envT c s e mp = .failure err)
    ∧ (∀ envT : TREnv, envT.gotoDirect = .ok () → envT.notFoundIndicator = true →
        envT.gotoSearch = .ok () → envT.foundProductUrl = none →
        scrapeTrustRadiusReviews envT c s e mp = .failure (trNotFoundMsg c))
    ∧ (∀ (envC : CapEnv) (err : List Char), envC.gotoSearch = .error err →
        scrapeCapterraReviews envC c s e mp = .failure err)
    ∧ (∀ envC : CapEnv, envC.gotoSearch = .ok () → envC.productFound = none →
        scrapeCapterraReviews envC c s e mp = .failure (capNotFoundMsg c))
    ∧ (∀ envT : TREnv, (∃ d, scrapeTrustRadiusReviews envT c s e mp = .success d) ∨
        (∃ err, scrapeTrustRadiusReviews envT c s e mp = .failure err))
    ∧ (∀ envC : CapEnv, (∃ d, scrapeCapterraReviews envC c s e mp = .success d) ∨
        (∃ err, scrapeCapterraReviews envC c s e mp = .failure err)) := by
  refine ⟨?_, ?_, ?_, ?_, ?_, ?_⟩
  · intro envT err h; simp [scrapeTrustRadiusReviews, h]
  · intro envT h1 h2 h3 h4; simp [scrapeTrustRadiusReviews, h1, h2, h3, h4]
  · intro envC err h; simp [scrapeCapterraReviews, h]
  · intro envC h1 h2; simp [scrapeCapterraReviews, h1, h2]
  · intro envT
    cases h : scrapeTrustRadiusReviews envT c s e mp with
    | success d => exact .inl ⟨d, rfl⟩
    | failure err => exact .inr ⟨err, rfl⟩
  · intro envC
    cases h : scrapeCapterraReviews envC c s e mp with
    | success d => exact .inl ⟨d, rfl⟩
    | failure err => exact .inr ⟨err, rfl⟩

theorem locate_failure_structured_witness :
    scrapeTrustRadiusReviews trEnvThrow ("Slack").data ⟨2025, 1, 1⟩ ⟨2025, 12, 31⟩ 10 =
      .failure ("net::ERR_NAME_NOT_RESOLVED").data
    ∧ scrapeTrustRadiusReviews trEnvNotFound ("Slack").data ⟨2025, 1, 1⟩ ⟨2025, 12, 31⟩ 10 =
      .failure (trNotFoundMsg ("Slack").data)
    ∧ scrapeCapterraReviews capEnvThrow ("Slack").data ⟨2025, 1, 1⟩ ⟨2025, 12, 31⟩ 10 =
      .failure ("Navigation timeout of 60000 ms exceeded").data
    ∧ scrapeCapterraReviews capEnvNotFound ("Slack").data ⟨2025, 1, 1⟩ ⟨2025, 12, 31⟩ 10 =
      .failure (capNotFoundMsg ("Slack").data) := by
  have h := locate_failure_structured ("Slack").data ⟨2025, 1, 1⟩ ⟨2025, 12, 31⟩ 10
  exact ⟨h.1 trEnvThrow _ rfl, h.2.1 trEnvNotFound rfl rfl rfl rfl,
    h.2.2.1 capEnvThrow _ rfl, h.2.2.2.1 capEnvNotFound rfl rfl⟩

theorem daysInMonth_pos (y : Int) (m : Nat) : 1 ≤ daysInMonth y m := by
  unfold daysInMonth
  split
  · split <;> omega
  · split <;> omega

theorem nextDay_valid {t : Instant} (h : t.valid) : (nextDay t).valid := by
  obtain ⟨y, m, d⟩ := t
  simp only [Instant.valid] at h
  by_cases hd : d < daysInMonth y m
  · rw [show nextDay ⟨y, m, d⟩ = ⟨y, m, d + 1⟩ from by simp [nextDay, hd]]
    simp only [Instant.valid]
    omega
  · by_cases hm : m < 12
    · rw [show nextDay ⟨y, m, d⟩ = ⟨y, m + 1, 1⟩ from by simp [nextDay, hd, hm]]
      have hp := daysInMonth_pos y (m + 1)
      simp only [Instant.valid]
      omega
    · rw [show nextDay ⟨y, m, d⟩ = ⟨y + 1, 1, 1⟩ from by simp [nextDay, hd, hm]]
      have hp := daysInMonth_pos (y + 1) 1
      simp only [Instant.valid]
      omega

theorem prevDay_valid {t : Instant} (h : t.valid) : (prevDay t).valid := by
  obtain ⟨y, m, d⟩ := t
  simp only [Instant.valid] at h
  by_cases hd : 1 < d
  · rw [show prevDay ⟨y, m, d⟩ = ⟨y, m, d - 1⟩ from by simp [prevDay, hd]]
    simp only [Instant.valid]
    omega
  · by_cases hm : 1 < m
    · rw [show prevDay ⟨y, m, d⟩ = ⟨y, m - 1, daysInMonth y (m - 1)⟩ from by
        simp [prevDay, hd, hm]]
      have hp := daysInMonth_pos y (m - 1)
      simp only [Instant.valid]
      omega
    · rw [show prevDay ⟨y, m, d⟩ = ⟨y - 1, 12, 31⟩ from by simp [prevDay, hd, hm]]
      have hp : daysInMonth (y - 1) 12 = 31 := by simp [daysInMonth]
      simp only [Instant.valid]
      omega

theorem prevDay_nextDay {t : Instant} (h : t.valid) : prevDay (nextDay t) = t := by
  obtain ⟨y, m, d⟩ := t
  simp only [Instant.valid] at h
  by_cases hd : d < daysInMonth y m
  · rw [show nextDay ⟨y, m, d⟩ = ⟨y, m, d + 1⟩ from by simp [nextDay, hd]]
    rw [show prevDay ⟨y, m, d + 1⟩ = ⟨y, m, d + 1 - 1⟩ from by
      simp [prevDay, show 1 < d + 1 from by omega]]
    rw [Nat.add_sub_cancel]
  · by_cases hm : m < 12
    · rw [show nextDay ⟨y, m, d⟩ = ⟨y, m + 1, 1⟩ from by simp [nextDay, hd, hm]]
      rw [show prevDay ⟨y, m + 1, 1⟩ = ⟨y, m + 1 - 1, daysInMonth y (m + 1 - 1)⟩ from by
        simp [prevDay, show (1 : Nat) < m + 1 from by omega]]
      rw [Nat.add_sub_cancel]
      have hdm : daysInMonth y m = d := by omega
      rw [hdm]
    · have hm12 : m = 12 := by omega
      subst hm12
      rw [show nextDay ⟨y, 12, d⟩ = ⟨y + 1, 1, 1⟩ from by simp [nextDay, hd]]
      rw [show prevDay ⟨y + 1, 1, 1⟩ = ⟨y + 1 - 1, 12, 31⟩ from by simp [prevDay]]
      have h31 : daysInMonth y 12 = 31 := by simp [daysInMonth]
      have hy : y + 1 - 1 = y := by ring
      have hd31 : d = 31 := by omega
      rw [hy, hd31]

theorem nextDay_iter_valid {t : Instant} (h : t.valid) (n : Nat) :
    (nextDay^[n] t).valid := by
  induction n with
  | zero => simpa using h
  | succ n ih =>
    rw [Function.iterate_succ_apply']
    exact nextDay_valid ih

theorem prevDay_iter_valid {t : Instant} (h : t.valid) (n : Nat) :
    (prevDay^[n] t).valid := by
  induction n with
  | zero => simpa using h
  | succ n ih =>
    rw [Function.iterate_succ_apply']
    exact prevDay_valid ih

theorem prevDay_nextDay_iter {t : Instant} (h : t.valid) (n : Nat) :
    prevDay^[n] (nextDay^[n] t) = t := by
  induction n with
  | zero => rfl
  | succ n ih =>
    rw [Function.iterate_succ_apply' (f := nextDay), Function.iterate_succ_apply (f := prevDay)]
    rw [prevDay_nextDay (nextDay_iter_valid h n)]
    exact ih

theorem nextDay_iter_day (y : Int) (m : Nat) :
    ∀ k, k < daysInMonth y m → nextDay^[k] (⟨y, m, 1⟩ : Instant) = ⟨y, m, k + 1⟩ := by
  intro k
  induction k with
  | zero => intro _; rfl
  | succ k ih =>
    intro hk
    rw [Function.iterate_succ_apply', ih (by omega)]
    simp [nextDay, show k + 1 < daysInMonth y m from hk]

theorem reach_day {y : Int} {m d : Nat} (h3 : 1 ≤ d) (h4 : d ≤ daysInMonth y m) :
    nextDay^[d - 1] (⟨y, m, 1⟩ : Instant) = ⟨y, m, d⟩ := by
  rw [nextDay_iter_day y m (d - 1) (by omega)]
  congr 1
  omega

theorem jsMkDate_subDays {t : Instant} (h : t.valid) (N : Nat) :
    jsMkDate t.year ((t.month : Int) - 1) ((t.day : Int) - (N : Int)) = subDays t N := by
  obtain ⟨y, m, d⟩ := t
  simp only [Instant.valid] at h
  have hbase : (⟨y, m, 1⟩ : Instant).valid :=
    ⟨h.1, h.2.1, le_refl 1, daysInMonth_pos y m⟩
  have e1 : ((m : Int) - 1) / 12 = 0 := by omega
  have e2 : (((m : Int) - 1) % 12).toNat + 1 = m := by omega
  rw [show jsMkDate y ((m : Int) - 1) ((d : Int) - (N : Int)) =
      addDays ⟨y + ((m : Int) - 1) / 12, (((m : Int) - 1) % 12).toNat + 1, 1⟩
        ((d : Int) - (N : Int) - 1) from rfl]
  rw [e1, e2, add_zero]
  have hreach : nextDay^[d - 1] (⟨y, m, 1⟩ : Instant) = ⟨y, m, d⟩ :=
    reach_day h.2.2.1 h.2.2.2
  rw [show subDays ⟨y, m, d⟩ N = prevDay^[N] (⟨y, m, d⟩ : Instant) from rfl, ← hreach]
  by_cases hc : N ≤ d - 1
  · have e3 : (d : Int) - (N : Int) - 1 = ((d - 1 - N : Nat) : Int) := by omega
    rw [addDays, if_pos (by omega), e3, Int.toNat_natCast]
    have e4 : d - 1 = N + (d - 1 - N) := by omega
    rw [e4, Function.iterate_add_apply, prevDay_nextDay_iter (nextDay_iter_valid hbase _)]
    congr 1
    omega
  · have e3 : ¬ (0 ≤ (d : Int) - (N : Int) - 1) := by omega
    rw [addDays, if_neg e3]
    have e4 : (-((d : Int) - (N : Int) - 1)).toNat = N - (d - 1) := by omega
    rw [e4]
    have e5 : N = (N - (d - 1)) + (d - 1) := by omega
    rw [e5, Function.iterate_add_apply, prevDay_nextDay_iter hbase]
    congr 1
    omega

theorem instLt_trans {a b c : Instant} (h1 : instLt a b = true) (h2 : instLt b c = true) :
    instLt a c = true := by
  simp only [instLt, decide_eq_true_eq] at *
  omega

theorem prevDay_lt {t : Instant} (h : t.valid) : instLt (prevDay t) t = true := by
  obtain ⟨y, m, d⟩ := t
  simp only [Instant.valid] at h
  by_cases hd : 1 < d
  · rw [show prevDay ⟨y, m, d⟩ = ⟨y, m, d - 1⟩ from by simp [prevDay, hd]]
    simp only [instLt, decide_eq_true_eq, true_and, lt_self_iff_false, false_or]
    omega
  · by_cases hm : 1 < m
    · rw [show prevDay ⟨y, m, d⟩ = ⟨y, m - 1, daysInMonth y (m - 1)⟩ from by
        simp [prevDay, hd, hm]]
      simp only [instLt, decide_eq_true_eq, true_and, lt_self_iff_false, false_or]
      omega
    · rw [show prevDay ⟨y, m, d⟩ = ⟨y - 1, 12, 31⟩ from by simp [prevDay, hd, hm]]
      simp only [instLt, decide_eq_true_eq, true_and, lt_self_iff_false, false_or]
      omega

theorem prevDay_iter_lt {t : Instant} (h : t.valid) :
    ∀ k, 1 ≤ k → instLt (prevDay^[k] t) t = true := by
  intro k
  induction k with
  | zero => omega
  | succ k ih =>
    intro _
    rw [Function.iterate_succ_apply']
    by_cases hk : 1 ≤ k
    · exact instLt_trans (prevDay_lt (prevDay_iter_valid h k)) (ih hk)
    · have hk0 : k = 0 := by omega
      subst hk0
      simpa using prevDay_lt h

theorem subDays_strict {t : Instant} (h : t.valid) {N1 N2 : Nat} (hlt : N1 < N2) :
    instLt (subDays t N2) (subDays t N1) = true := by
  rw [subDays, subDays, show N2 = (N2 - N1) + N1 from by omega, Function.iterate_add_apply]
  exact prevDay_iter_lt (prevDay_iter_valid h N1) (N2 - N1) (by omega)

theorem digit_not_ws {c : Char} (h : c.isDigit = true) : isWsChar c = false := by
  by_contra h'
  rw [Bool.not_eq_false] at h'
  simp only [isWsChar, Bool.or_eq_true, beq_iff_eq] at h'
  have hd : c.isDigit = false := by
    rcases h' with ((((h' | h') | h') | h') | h') | h' <;> subst h' <;> rfl
  rw [hd] at h
  cases h

theorem digits_takeWhile (ds r : List Char) (h : ∀ c ∈ ds, c.isDigit = true) :
    (ds ++ ' ' :: r).takeWhile Char.isDigit = ds ∧
    (ds ++ ' ' :: r).dropWhile Char.isDigit = ' ' :: r := by
  induction ds with
  | nil =>
    constructor
    · simp [List.takeWhile_cons, show (' ').isDigit = false from rfl]
    · simp [List.dropWhile_cons, show (' ').isDigit = false from rfl]
  | cons a as ih =>
    have ha : a.isDigit = true := h a (by simp)
    have ih' := ih (fun c hc => h c (by simp [hc]))
    constructor
    · simp [List.cons_append, List.takeWhile_cons, ha, ih'.1]
    · simp [List.cons_append, List.dropWhile_cons, ha, ih'.2]

theorem isoNative_length_ne (l : List Char) (h : l.length ≠ 10) : isoNative l = none := by
  rw [isoNative.eq_def]
  split
  · next heq => simp at h
  · rfl

theorem isoNative_days_ago (ds : List Char) (hne : ds ≠ [])
    (hdig : ∀ c ∈ ds, c.isDigit = true) :
    isoNative (ds ++ (" days ago").data) = none := by
  cases ds with
  | nil => exact absurd rfl hne
  | cons a as =>
    cases as with
    | nil => simp [isoNative]
    | cons b bs =>
      apply isoNative_length_ne
      simp only [List.length_append, List.length_cons]
      omega

theorem jsTrim_days_ago (ds : List Char) (hne : ds ≠ [])
    (hdig : ∀ c ∈ ds, c.isDigit = true) :
    jsTrim (ds ++ (" days ago").data) = ds ++ (" days ago").data := by
  unfold jsTrim
  have h1 : (ds ++ (" days ago").data).dropWhile isWsChar = ds ++ (" days ago").data := by
    cases ds with
    | nil => exact absurd rfl hne
    | cons a as =>
      have ha : isWsChar a = false := digit_not_ws (hdig a (by simp))
      simp [List.cons_append, List.dropWhile_cons, ha]
  rw [h1]
  have h2 : (ds ++ (" days ago").data).reverse = ("oga syad ").data ++ ds.reverse := by
    rw [List.reverse_append]
    rfl
  rw [h2]
  rw [show (("oga syad ").data ++ ds.reverse).dropWhile isWsChar =
      ("oga syad ").data ++ ds.reverse from by
    simp [List.dropWhile_cons, show isWsChar 'o' = false from rfl]]
  rw [← h2, List.reverse_reverse]

theorem matchRel_days_ago (ds : List Char) (hne : ds ≠ [])
    (hdig : ∀ c ∈ ds, c.isDigit = true) :
    matchRel (ds ++ (" days ago").data) = some (digitsVal ds, RelUnit.day) := by
  have hsplit := digits_takeWhile ds ("days ago").data hdig
  have hAt : matchRelAt (ds ++ ' ' :: ("days ago").data) = some (digitsVal ds, RelUnit.day) := by
    unfold matchRelAt
    rw [hsplit.1, hsplit.2, if_neg hne]
    rw [show (' ' :: ("days ago").data).takeWhile isWsChar = [' '] from rfl]
    rw [if_neg (by decide)]
    rw [show (' ' :: ("days ago").data).dropWhile isWsChar = ("days ago").data from rfl]
    rfl
  simp only [show (" days ago").data = ' ' :: ("days ago").data from rfl]
  cases ds with
  | nil => exact absurd rfl hne
  | cons a as =>
    simp only [List.cons_append] at hAt ⊢
    unfold matchRel scanOpt
    rw [hAt]

/-- C6: at any fixed valid reference instant, parsing "<N> days ago"
(for any decimal rendering of `N ≥ 1`) yields exactly the instant `N`
calendar days earlier (`subDays`, the `N`-fold previous day), and the
result is strictly monotonically decreasing in `N`. -/
theorem relative_days_ago (now : Instant) (hv : now.valid) (N : Nat) (hN : 1 ≤ N)
    (ds : List Char) (hne : ds ≠ []) (hdig : ∀ c ∈ ds, c.isDigit = true)
    (hval : digitsVal ds = N) :
    parseDate isoNative now (ds ++ (" days ago").data) = some (subDays now N)
    ∧ (∀ N2, N < N2 → instLt (subDays now N2) (subDays now N) = true) := by
  constructor
  · have hjs := jsTrim_days_ago ds hne hdig
    have hiso := isoNative_days_ago ds hne hdig
    have hrel := matchRel_days_ago ds hne hdig
    have hne2 : ¬ (ds ++ (" days ago").data = []) := by simp [hne]
    unfold parseDate
    rw [if_neg hne2]
    simp only [hjs, hiso, hrel, hval]
    simp only [applyRel]
    exact congrArg some (jsMkDate_subDays hv N)
  · intro N2 h2
    exact subDays_strict hv h2

theorem relative_days_ago_witness :
    parseDate isoNative ⟨2025, 6, 15⟩ (("3").data ++ (" days ago").data) =
      some (subDays ⟨2025, 6, 15⟩ 3)
    ∧ (∀ N2, 3 < N2 → instLt (subDays ⟨2025, 6, 15⟩ N2) (subDays ⟨2025, 6, 15⟩ 3) = true) :=
  relative_days_ago ⟨2025, 6, 15⟩ (by decide) 3 (by decide) ("3").data
    (by decide) (by decide) (by decide)

theorem digitChar_isDigit {n : Nat} (h : n < 10) : (digitChar n).isDigit = true := by
  interval_cases n <;> rfl

theorem digitChar_not_ws {n : Nat} (h : n < 10) : isWsChar (digitChar n) = false := by
  interval_cases n <;> rfl

theorem digitChar_toNat {n : Nat} (h : n < 10) : (digitChar n).toNat - 48 = n := by
  interval_cases n <;> rfl

theorem natCharsAux_one {fuel y : Nat} (hf : 1 ≤ fuel) (h2 : y < 10) :
    natCharsAux fuel y = [digitChar y] := by
  obtain ⟨f, rfl⟩ : ∃ f, fuel = f + 1 := ⟨fuel - 1, by omega⟩
  simp [natCharsAux, h2]

theorem natCharsAux_two {fuel y : Nat} (hf : 2 ≤ fuel) (h1 : 10 ≤ y) (h2 : y < 100) :
    natCharsAux fuel y = [digitChar (y / 10), digitChar (y % 10)] := by
  obtain ⟨f, rfl⟩ : ∃ f, fuel = f + 1 := ⟨fuel - 1, by omega⟩
  rw [show natCharsAux (f + 1) y =
      (if y < 10 then [digitChar y] else natCharsAux f (y / 10) ++ [digitChar (y % 10)])
    from rfl]
  rw [if_neg (by omega), natCharsAux_one (by omega) (by omega)]
  rfl

theorem natCharsAux_three {fuel y : Nat} (hf : 3 ≤ fuel) (h1 : 100 ≤ y) (h2 : y < 1000) :
    natCharsAux fuel y = [digitChar (y / 100), digitChar (y / 10 % 10), digitChar (y % 10)] := by
  obtain ⟨f, rfl⟩ : ∃ f, fuel = f + 1 := ⟨fuel - 1, by omega⟩
  rw [show natCharsAux (f + 1) y =
      (if y < 10 then [digitChar y] else natCharsAux f (y / 10) ++ [digitChar (y % 10)])
    from rfl]
  rw [if_neg (by omega), natCharsAux_two (by omega) (by omega) (by omega)]
  rw [show y / 10 / 10 = y / 100 from by omega, show y / 10 % 10 = y / 10 % 10 from rfl]
  rfl

theorem natCharsAux_four {fuel y : Nat} (hf : 4 ≤ fuel) (h1 : 1000 ≤ y) (h2 : y < 10000) :
    natCharsAux fuel y =
      [digitChar (y / 1000), digitChar (y / 100 % 10),
       digitChar (y / 10 % 10), digitChar (y % 10)] := by
  obtain ⟨f, rfl⟩ : ∃ f, fuel = f + 1 := ⟨fuel - 1, by omega⟩
  rw [show natCharsAux (f + 1) y =
      (if y < 10 then [digitChar y] else natCharsAux f (y / 10) ++ [digitChar (y % 10)])
    from rfl]
  rw [if_neg (by omega), natCharsAux_three (by omega) (by omega) (by omega)]
  rw [show y / 10 / 100 = y / 1000 from by omega,
      show y / 10 / 10 % 10 = y / 100 % 10 from by omega]
  rfl

theorem daysInMonth_le31 (y : Int) (m : Nat) : daysInMonth y m ≤ 31 := by
  unfold daysInMonth
  split
  · split <;> omega
  · split <;> omega

theorem isoNative_isoString (y m d : Nat) (hy2 : y ≤ 9999)
    (hm1 : 1 ≤ m) (hm2 : m ≤ 12) (hd1 : 1 ≤ d) (hd2 : d ≤ daysInMonth (y : Int) m) :
    isoNative (isoString y m d) = some ⟨(y : Int), m, d⟩ := by
  have hd99 : d ≤ 31 := le_trans hd2 (daysInMonth_le31 _ _)
  have hY : digitsVal [digitChar (y / 1000), digitChar (y / 100 % 10),
      digitChar (y / 10 % 10), digitChar (y % 10)] = y := by
    simp only [digitsVal, List.foldl]
    rw [digitChar_toNat (by omega), digitChar_toNat (by omega),
        digitChar_toNat (by omega), digitChar_toNat (by omega)]
    omega
  have hM : digitsVal [digitChar (m / 10), digitChar (m % 10)] = m := by
    simp only [digitsVal, List.foldl]
    rw [digitChar_toNat (by omega), digitChar_toNat (by omega)]
    omega
  have hD : digitsVal [digitChar (d / 10), digitChar (d % 10)] = d := by
    simp only [digitsVal, List.foldl]
    rw [digitChar_toNat (by omega), digitChar_toNat (by omega)]
    omega
  unfold isoString
  simp only [isoNative]
  rw [if_pos ⟨trivial, trivial, digitChar_isDigit (by omega), digitChar_isDigit (by omega),
    digitChar_isDigit (by omega), digitChar_isDigit (by omega), digitChar_isDigit (by omega),
    digitChar_isDigit (by omega), digitChar_isDigit (by omega), digitChar_isDigit (by omega)⟩]
  simp only [hY, hM, hD]
  rw [if_pos ⟨hm1, hm2, hd1, hd2⟩]

theorem formatDate_isoString (y m d : Nat) (hy1 : 1000 ≤ y) (hy2 : y ≤ 9999)
    (hm1 : 1 ≤ m) (hm2 : m ≤ 12) (hd1 : 1 ≤ d) (hd99 : d ≤ 99) :
    formatDate ⟨(y : Int), m, d⟩ = isoString y m d := by
  have hYpart : intChars ((y : Nat) : Int) =
      [digitChar (y / 1000), digitChar (y / 100 % 10),
       digitChar (y / 10 % 10), digitChar (y % 10)] := by
    unfold intChars
    rw [if_neg (by omega), Int.toNat_natCast]
    unfold natChars
    exact natCharsAux_four (by omega) hy1 (by omega)
  have hMpart : jsPadStart2 (natChars m) = [digitChar (m / 10), digitChar (m % 10)] := by
    by_cases hm10 : m < 10
    · rw [show natChars m = [digitChar m] from natCharsAux_one (by omega) hm10]
      rw [show jsPadStart2 [digitChar m] = ['0', digitChar m] from by simp [jsPadStart2]]
      rw [show m / 10 = 0 from by omega, show m % 10 = m from by omega]
      rfl
    · rw [show natChars m = [digitChar (m / 10), digitChar (m % 10)] from
        natCharsAux_two (by omega) (by omega) (by omega)]
      simp [jsPadStart2]
  have hDpart : jsPadStart2 (natChars d) = [digitChar (d / 10), digitChar (d % 10)] := by
    by_cases hd10 : d < 10
    · rw [show natChars d = [digitChar d] from natCharsAux_one (by omega) hd10]
      rw [show jsPadStart2 [digitChar d] = ['0', digitChar d] from by simp [jsPadStart2]]
      rw [show d / 10 = 0 from by omega, show d % 10 = d from by omega]
      rfl
    · rw [show natChars d = [digitChar (d / 10), digitChar (d % 10)] from
        natCharsAux_two (by omega) (by omega) (by omega)]
      simp [jsPadStart2]
  show intChars ((y : Nat) : Int) ++ '-' :: jsPadStart2 (natChars m)
      ++ '-' :: jsPadStart2 (natChars d) = isoString y m d
  rw [hYpart, hMpart, hDpart]
  rfl

/-- C7 counterexample: the valid ISO date string "0012-03-04" parses
(via the native rule) to March 4 of year 12, but `formatDate` prints
it as "12-03-04" — the code pads only month and day, not the year —
which is not the zero-padded `YYYY-MM-DD` rendering of that calendar
date, so parse-then-format does not yield a zero-padded `YYYY-MM-DD`
string for this input. -/
theorem format_year_pad_cex :
    parseDate isoNative ⟨2025, 1, 1⟩ (("0012-03-04").data) =
      some ⟨12, 3, 4⟩
    ∧ formatDate ⟨12, 3, 4⟩ = ("12-03-04").data
    ∧ formatDate ⟨12, 3, 4⟩ ≠ isoString 12 3 4
    ∧ isoString 12 3 4 = ("0012-03-04").data := by
  exact ⟨by decide, by decide, by decide, by decide⟩

/-- C7 amended: for valid ISO date strings whose year is at least
1000 (the year's decimal form is already 4 digits), parse followed by
format round-trips to the identical zero-padded `YYYY-MM-DD` string,
hence to the same calendar date; for years below 1000 the year is
printed without leading zeros (see `format_year_pad_cex`), though
month and day remain padded and the calendar date is preserved. -/
theorem iso_roundtrip (now : Instant) (y m d : Nat) (hy1 : 1000 ≤ y) (hy2 : y ≤ 9999)
    (hm1 : 1 ≤ m) (hm2 : m ≤ 12) (hd1 : 1 ≤ d) (hd2 : d ≤ daysInMonth (y : Int) m) :
    parseDate isoNative now (isoString y m d) = some ⟨(y : Int), m, d⟩
    ∧ formatDate ⟨(y : Int), m, d⟩ = isoString y m d := by
  have hne : isoString y m d ≠ [] := by unfold isoString; simp
  have h1 : (isoString y m d).dropWhile isWsChar = isoString y m d := by
    unfold isoString
    rw [List.dropWhile_cons_of_neg]
    simp [digitChar_not_ws (show y / 1000 < 10 from by omega)]
  have hrev : (isoString y m d).reverse =
      [digitChar (d % 10), digitChar (d / 10), '-', digitChar (m % 10), digitChar (m / 10),
       '-', digitChar (y % 10), digitChar (y / 10 % 10), digitChar (y / 100 % 10),
       digitChar (y / 1000)] := by
    unfold isoString
    rfl
  have h2 : (isoString y m d).reverse.dropWhile isWsChar = (isoString y m d).reverse := by
    rw [hrev]
    rw [List.dropWhile_cons_of_neg]
    simp [digitChar_not_ws (show d % 10 < 10 from by omega)]
  have hTrim : jsTrim (isoString y m d) = isoString y m d := by
    unfold jsTrim
    rw [h1, h2, List.reverse_reverse]
  constructor
  · unfold parseDate
    rw [if_neg hne]
    simp only [hTrim, isoNative_isoString y m d hy2 hm1 hm2 hd1 hd2]
  · exact formatDate_isoString y m d hy1 hy2 hm1 hm2 hd1
      (le_trans hd2 (le_trans (daysInMonth_le31 _ _) (by omega)))

theorem iso_roundtrip_witness :
    parseDate isoNative ⟨2025, 1, 1⟩ (isoString 2023 1 15) = some ⟨2023, 1, 15⟩
    ∧ formatDate ⟨2023, 1, 15⟩ = isoString 2023 1 15 :=
  iso_roundtrip ⟨2025, 1, 1⟩ 2023 1 15 (by decide) (by decide) (by decide) (by decide)
    (by decide) (by decide)

theorem scrapeLoopAux_nav_fail {Raw : Type} (mk : Raw → Review) (env : PageEnv Raw)
    (maxPages k : Nat) (hk : k < maxPages) (hnav : env.navOk k = false) :
    ∀ fuel cur acc, cur ≤ k → maxPages + 1 ≤ fuel + cur →
      (∀ j, cur ≤ j → j ≤ k → env.hasNext j = true) →
      (∀ j, cur ≤ j → j < k → env.navOk j = true) →
      scrapeLoopAux mk env maxPages fuel cur acc =
        (acc ++ pagesConcat mk env cur (k - cur + 1), k - cur + 1) := by
  intro fuel
  induction fuel with
  | zero =>
    intro cur acc h1 h2 _ _
    exfalso
    omega
  | succ fuel ih =>
    intro cur acc h1 h2 hnext hnavok
    simp only [scrapeLoopAux]
    rw [if_pos (show cur ≤ maxPages from by omega)]
    rw [if_pos (show env.hasNext cur = true ∧ cur < maxPages from
      ⟨hnext cur le_rfl h1, by omega⟩)]
    by_cases hck : cur = k
    · subst hck
      rw [if_neg (by simp [hnav])]
      simp [pagesConcat, Nat.sub_self]
    · have hck' : cur < k := by omega
      rw [if_pos (hnavok cur le_rfl hck')]
      rw [ih (cur + 1) (acc ++ (env.rawItems cur).map mk) (by omega) (by omega)
        (fun j hj1 hj2 => hnext j (by omega) hj2)
        (fun j hj1 hj2 => hnavok j (by omega) hj2)]
      rw [show k - cur + 1 = (k - (cur + 1) + 1) + 1 from by omega]
      simp only [pagesConcat, List.append_assoc]
  

/-- C4 counterexample: in the G2 pagination loop a navigation
exception while advancing from page 1 to page 2 does not make the
scraper stop and return page 1's reviews as a success.  The
resolving scroll-and-click fallback lets `currentPage++` run, and the
objects `{ hasNext: false }` assigned afterwards keep the truthy
while condition satisfied, so after 6 iterations (cap 2) the loop is
still running, having extracted page 1 once and page 2 five times —
it never stops and never returns `[page-1 reviews]`. -/
theorem g2_nav_no_stop_cex :
    g2FallbackOkEnv.navOk 1 = false
    ∧ (g2Loop g2FallbackOkEnv 2 6).2.2 = false
    ∧ (g2Loop g2FallbackOkEnv 2 6).1 =
        [g2MkReview (demoG2Raw 1), g2MkReview (demoG2Raw 2), g2MkReview (demoG2Raw 2),
         g2MkReview (demoG2Raw 2), g2MkReview (demoG2Raw 2), g2MkReview (demoG2Raw 2)]
    ∧ (g2Loop g2FallbackOkEnv 2 6).1 ≠ [g2MkReview (demoG2Raw 1)] := by
  exact ⟨by decide, by decide, by decide, by decide⟩

/-- C4 amended: a navigation exception while advancing from page `k`
to page `k+1` never propagates.  TrustRadius (and Capterra, which
shares `scrapeLoopAux`) stops paginating and returns the reviews of
pages 1..k, date-filtered, as `{ success: true }`.  The G2 pagination
loop, however, does not stop and return pages 1..k: whether the
scroll-and-click fallback of the inner `.catch` resolves
(`currentPage++` moves on, see `g2_nav_no_stop_cex`) or throws (the
outer catch assigns `{ hasNext: false }`, an object the truthy while
condition accepts), the loop keeps iterating — re-probing and
re-extracting — and never exits; the path is dead code under
`useMockData = true`. -/
theorem nav_failure_partial_results (s e : Instant) (c : List Char) :
    (∀ (env : TREnv) (mp k : Nat), env.gotoDirect = .ok () → env.notFoundIndicator = false →
      env.gotoReviews = .ok () → 1 ≤ k → k < mp →
      env.pages.navOk k = false →
      (∀ j, 1 ≤ j → j ≤ k → env.pages.hasNext j = true) →
      (∀ j, 1 ≤ j → j < k → env.pages.navOk j = true) →
      scrapeTrustRadiusReviews env c s e mp =
        .success (dateFilter env.now s e (pagesConcat trMkReview env.pages 1 k)))
    ∧ (∀ (env : G2PageEnv) (mp k fuel : Nat), 1 ≤ k → k < mp →
        env.navOk k = false →
        (g2Loop env mp fuel).2.2 = false) := by
  constructor
  · intro env mp k h1 h2 h3 hk1 hkmp hnav hnext hnavok
    rw [show scrapeTrustRadiusReviews env c s e mp =
        .success (dateFilter env.now s e (scrapeLoop trMkReview env.pages mp).1) from by
      simp [scrapeTrustRadiusReviews, h1, h2, h3]]
    rw [scrapeLoop, scrapeLoopAux_nav_fail trMkReview env.pages mp k hkmp hnav mp 1 []
      (by omega) (by omega) hnext hnavok]
    rw [show k - 1 + 1 = k from by omega]
    rw [List.nil_append]
  · intro env mp k fuel hk1 hkmp hnav
    exact (g2Loop_no_exit env mp fuel (by omega)).2

theorem nav_failure_partial_results_witness :
    scrapeTrustRadiusReviews trEnvNavFail ("Slack").data ⟨2025, 1, 1⟩ ⟨2025, 12, 31⟩ 10 =
      .success (dateFilter trEnvNavFail.now ⟨2025, 1, 1⟩ ⟨2025, 12, 31⟩
        (pagesConcat trMkReview trEnvNavFail.pages 1 2))
    ∧ (g2Loop g2FallbackFailEnv 10 7).2.2 = false := by
  have h := nav_failure_partial_results ⟨2025, 1, 1⟩ ⟨2025, 12, 31⟩ ("Slack").data
  constructor
  · exact h.1 trEnvNavFail 10 2 rfl rfl rfl (by decide) (by decide) (by decide)
      (fun j _ _ => rfl)
      (fun j _ hj => by
        show decide (j < 2) = true
        simpa using hj)
  · exact h.2 g2FallbackFailEnv 10 2 7 (by decide) (by decide) (by decide)

theorem mock_parse_1 (now : Instant) :
    parseDate isoNative now (("June 15, 2025").data) = some ⟨2025, 6, 15⟩ := rfl

theorem mock_parse_2 (now : Instant) :
    parseDate isoNative now (("May 22, 2025").data) = some ⟨2025, 5, 22⟩ := rfl

theorem mock_parse_3 (now : Instant) :
    parseDate isoNative now (("April 3, 2025").data) = some ⟨2025, 4, 3⟩ := rfl

theorem mock_parse_4 (now : Instant) :
    parseDate isoNative now (("March 17, 2025").data) = some ⟨2025, 3, 17⟩ := rfl

theorem mock_parse_5 (now : Instant) :
    parseDate isoNative now (("February 8, 2025").data) = some ⟨2025, 2, 8⟩ := rfl

/-- C9: with the compiled-in `useMockData = true`, `scrapeG2Reviews`
touches no browser environment: for all environments, company names
and page caps it returns the same `{ success: true }` value, whose
data is exactly the fixed 5-review demo dataset filtered to the
reviews whose parsed date lies in `[startDate, endDate]` — a
function of the date range alone — and every returned review's
`source` is the literal `G2 (Demo Data)`. -/
theorem g2_mock_deterministic (envA envB : G2Env) (cA cB : List Char)
    (s e : Instant) (mpA mpB : Nat) :
    scrapeG2Reviews envA cA s e mpA = scrapeG2Reviews envB cB s e mpB
    ∧ scrapeG2Reviews envA cA s e mpA =
        .success (((mockData.zip mockDates).filter
          (fun p => instLe s p.2 && instLe p.2 e)).map Prod.fst)
    ∧ (∀ r l, scrapeG2Reviews envA cA s e mpA = .success l → r ∈ l →
        r.source = ("G2 (Demo Data)").data) := by
  have hk : ∀ now : Instant,
      dateKeep now s e mockReview1 = (instLe s ⟨2025, 6, 15⟩ && instLe ⟨2025, 6, 15⟩ e)
      ∧ dateKeep now s e mockReview2 = (instLe s ⟨2025, 5, 22⟩ && instLe ⟨2025, 5, 22⟩ e)
      ∧ dateKeep now s e mockReview3 = (instLe s ⟨2025, 4, 3⟩ && instLe ⟨2025, 4, 3⟩ e)
      ∧ dateKeep now s e mockReview4 = (instLe s ⟨2025, 3, 17⟩ && instLe ⟨2025, 3, 17⟩ e)
      ∧ dateKeep now s e mockReview5 = (instLe s ⟨2025, 2, 8⟩ && instLe ⟨2025, 2, 8⟩ e) :=
    fun now => ⟨rfl, rfl, rfl, rfl, rfl⟩
  have hmain : ∀ (env : G2Env) (c : List Char) (mp : Nat),
      scrapeG2Reviews env c s e mp =
        .success (((mockData.zip mockDates).filter
          (fun p => instLe s p.2 && instLe p.2 e)).map Prod.fst) := by
    intro env c mp
    obtain ⟨k1, k2, k3, k4, k5⟩ := hk env.now
    show ScrapeResult.success (mockData.filter (dateKeep env.now s e)) = _
    simp only [mockData, mockDates, List.zip_cons_cons, List.zip_nil_right,
      List.filter_cons, List.filter_nil, k1, k2, k3, k4, k5]
    cases instLe s ⟨2025, 6, 15⟩ && instLe ⟨2025, 6, 15⟩ e <;>
      cases instLe s ⟨2025, 5, 22⟩ && instLe ⟨2025, 5, 22⟩ e <;>
      cases instLe s ⟨2025, 4, 3⟩ && instLe ⟨2025, 4, 3⟩ e <;>
      cases instLe s ⟨2025, 3, 17⟩ && instLe ⟨2025, 3, 17⟩ e <;>
      cases instLe s ⟨2025, 2, 8⟩ && instLe ⟨2025, 2, 8⟩ e <;>
      simp
  refine ⟨(hmain envA cA mpA).trans (hmain envB cB mpB).symm, hmain envA cA mpA, ?_⟩
  intro r l hsucc hmem
  rw [hmain envA cA mpA] at hsucc
  injection hsucc with hl
  subst hl
  obtain ⟨p, hp, rfl⟩ := List.mem_map.mp hmem
  have hz := List.mem_of_mem_filter hp
  simp only [mockData, mockDates, List.zip_cons_cons, List.zip_nil_right,
    List.mem_cons, List.not_mem_nil, or_false] at hz
  rcases hz with h | h | h | h | h <;> subst h <;> rfl

/-- C10 counterexample: a TrustRadius container whose title and
reviewer elements exist but hold only whitespace text is emitted as a
Review with empty `title` and empty `reviewer.name` — the code's
`titleElement ? titleElement.innerText.trim() : 'No Title'` applies
the fallback only when the element is absent, not when its trimmed
text is empty. -/
theorem blank_title_cex :
    ∃ r ∈ (scrapeLoop trMkReview blankTitleEnv 1).1,
      r.title = [] ∧ r.reviewer.name = [] := by
  decide

/-- C10 amended: every emitted Review has a non-empty description
(fallbacks 'No review content available' / 'No review text
available'), and G2 reviews additionally have non-empty title and
reviewer name (its `findText` skips blank-text candidates);
TrustRadius and Capterra apply 'No Title' / 'Anonymous' / rating 0
only when the corresponding element is absent — an element present
with blank text yields an empty string (see `blank_title_cex`) — and
rating is a numeric value, `some 0` when no rating element matched
(`NaN`, modelled `none`, only when a present `data-rating` attribute
fails to parse). -/
theorem review_fallbacks (raw : SiteRaw) (g : G2Raw) :
    (trMkReview raw).description ≠ []
    ∧ (capMkReview raw).description ≠ []
    ∧ (g2MkReview g).title ≠ []
    ∧ (g2MkReview g).description ≠ []
    ∧ (g2MkReview g).reviewer.name ≠ []
    ∧ (raw.titleEl = none → (trMkReview raw).title = ("No Title").data
        ∧ (capMkReview raw).title = ("No Title").data)
    ∧ (raw.reviewerEl = none → (trMkReview raw).reviewer.name = ("Anonymous").data
        ∧ (capMkReview raw).reviewer.name = ("Anonymous").data)
    ∧ (raw.ratingEl = none → (trMkReview raw).rating = some 0
        ∧ (capMkReview raw).rating = some 0)
    ∧ (g.ratingCands = [] → (g2MkReview g).rating = some 0) := by
  refine ⟨?_, ?_, ?_, ?_, ?_, ?_, ?_, ?_, ?_⟩
  · rw [show (trMkReview raw).description =
        (if joinReviewText (optTrim raw.bodyEl []) (optTrim raw.prosEl [])
            (optTrim raw.consEl []) = []
         then ("No review content available").data
         else joinReviewText (optTrim raw.bodyEl []) (optTrim raw.prosEl [])
            (optTrim raw.consEl [])) from rfl]
    split
    · simp
    · next h => exact h
  · rw [show (capMkReview raw).description =
        (if joinReviewText (optTrim raw.bodyEl []) (optTrim raw.prosEl [])
            (optTrim raw.consEl []) = []
         then ("No review content available").data
         else joinReviewText (optTrim raw.bodyEl []) (optTrim raw.prosEl [])
            (optTrim raw.consEl [])) from rfl]
    split
    · simp
    · next h => exact h
  · rw [show (g2MkReview g).title =
        (if findText g.titleCands = [] then ("No Title").data
         else findText g.titleCands) from rfl]
    split
    · simp
    · next h => exact h
  · rw [show (g2MkReview g).description =
        (if findText g.textCands = [] then ("No review text available").data
         else findText g.textCands) from rfl]
    split
    · simp
    · next h => exact h
  · rw [show (g2MkReview g).reviewer.name =
        (if findText g.nameCands = [] then ("Anonymous").data
         else findText g.nameCands) from rfl]
    split
    · simp
    · next h => exact h
  · intro h
    exact ⟨by simp [trMkReview, optTrim, h], by simp [capMkReview, optTrim, h]⟩
  · intro h
    exact ⟨by simp [trMkReview, optTrim, h], by simp [capMkReview, optTrim, h]⟩
  · intro h
    exact ⟨by simp [trMkReview, siteRating, h], by simp [capMkReview, siteRating, h]⟩
  · intro h
    rw [show (g2MkReview g).rating = g2Rating g.ratingCands from rfl, h]
    rfl

theorem review_fallbacks_witness :
    (trMkReview emptyElsRaw).description ≠ []
    ∧ (capMkReview emptyElsRaw).description ≠ []
    ∧ (g2MkReview emptyG2Raw).title ≠ []
    ∧ (g2MkReview emptyG2Raw).description ≠ []
    ∧ (g2MkReview emptyG2Raw).reviewer.name ≠ []
    ∧ (emptyElsRaw.titleEl = none → (trMkReview emptyElsRaw).title = ("No Title").data
        ∧ (capMkReview emptyElsRaw).title = ("No Title").data)
    ∧ (emptyElsRaw.reviewerEl = none →
        (trMkReview emptyElsRaw).reviewer.name = ("Anonymous").data
        ∧ (capMkReview emptyElsRaw).reviewer.name = ("Anonymous").data)
    ∧ (emptyElsRaw.ratingEl = none → (trMkReview emptyElsRaw).rating = some 0
        ∧ (capMkReview emptyElsRaw).rating = some 0)
    ∧ (emptyG2Raw.ratingCands = [] → (g2MkReview emptyG2Raw).rating = some 0) :=
  review_fallbacks emptyElsRaw emptyG2Raw
